import Mathlib

/-! Verification of the LogPulse HR workflow backend (src/app/main.py).

The FastAPI handlers are shallowly embedded as pure functions over an
explicit `AppState`.  Python dicts keyed by integer ids become association
lists (`List (Nat × α)`) with first-occurrence lookup and in-place
replacement, mirroring dict semantics; `time.time()` becomes an explicit
`now : Rat` argument; raising `HTTPException(status, detail)` becomes
returning `Except.error` carrying the status code, the detail string and
the state at the raise point; the handler's final `return record` becomes
`Except.ok (record, newState)`.  Python truthiness tests on strings and
optionals (`if record["hr_reviewer"]:`, `if payload.note:`) are embedded
by `truthyOptStr`, which is false exactly on `none` and on the empty
string, as in Python.  Salaries, ratios and timestamps are embedded as
exact rationals (`Rat`); the IEEE-754 rounding of the source is abstracted
to exact arithmetic.  ISO-8601 timestamp parsing in the attendance
endpoint is abstracted: the payload carries the already-parsed optional
timestamp. -/

set_option linter.unusedVariables false

deriving instance DecidableEq for Except

namespace LogPulse

/-- An HTTP error exactly as raised by the handlers: status code and detail. -/
structure Err where
  status : Nat
  detail : String
  deriving Repr, DecidableEq

/-- First-occurrence lookup in an association list, like Python `dict.get`. -/
def lookup {α : Type} : List (Nat × α) → Nat → Option α
  | [], _ => none
  | kv :: rest, k => if kv.1 = k then some kv.2 else lookup rest k

/-- Python `d[k] = v`: replace the value at the first occurrence of `k`,
or append a new binding when `k` is absent (dict insertion order). -/
def dictSet {α : Type} : List (Nat × α) → Nat → α → List (Nat × α)
  | [], k, v => [(k, v)]
  | kv :: rest, k, v => if kv.1 = k then (k, v) :: rest else kv :: dictSet rest k v

/-- Python `k in d` on a dict embedded as an association list. -/
def hasKey {α : Type} (m : List (Nat × α)) (k : Nat) : Bool :=
  (lookup m k).isSome

/-- Python truthiness of an optional string: `None` and `""` are falsy. -/
def truthyOptStr : Option String → Bool
  | none => false
  | some t => !t.isEmpty

/-- Python truthiness of an optional float timestamp, as in
`record.get("reviewed_at")`: `None` and `0.0` are falsy. -/
def truthyOptRat : Option Rat → Bool
  | none => false
  | some t => decide (t ≠ 0)

/-- Python `str.lower()`, over the string's character list (ASCII case
folding, which covers every string this program compares). -/
def pyLower (s : String) : String :=
  ⟨s.data.map Char.toLower⟩

/-- Python `str.strip()`: drop whitespace from both ends of the string. -/
def pyStrip (s : String) : String :=
  ⟨((s.data.dropWhile Char.isWhitespace).reverse.dropWhile Char.isWhitespace).reverse⟩

/-- The approval-level order list `["hr", "manager", "director"]` from
`decide_salary_adjustment`. -/
def levelOrder : List String := ["hr", "manager", "director"]

structure Department where
  id : Nat
  name : String
  deriving Repr, DecidableEq

structure Employee where
  id : Nat
  name : String
  department_id : Nat
  title : String
  deriving Repr, DecidableEq

structure AttendanceRec where
  employee_id : Nat
  status : String
  note : Option String
  ts : Rat
  deriving Repr, DecidableEq

structure LeaveRecord where
  id : Nat
  employee_id : Nat
  leave_type : String
  days : Int
  reason : Option String
  status : String
  approver : Option String
  created_at : Rat
  decided_at : Option Rat
  reviewed_at : Option Rat := none
  reviewer : Option String := none
  review_status : Option String := none
  deriving Repr, DecidableEq

/-- A travel request (main.py 1040-1050); `decided_at`, `reviewed_at` and
`review_status` are dict keys first set by the decide/review handlers, so
they default to `none` (absent). -/
structure TravelRecord where
  id : Nat
  employee_id : Nat
  destination : String
  days : Int
  reason : Option String
  status : String
  approver : Option String
  reviewer : Option String
  created_at : Rat
  decided_at : Option Rat := none
  reviewed_at : Option Rat := none
  review_status : Option String := none
  deriving Repr, DecidableEq

/-- One entry of a promotion request's `history` list.  The Python dicts
carry different keys per event kind; absent keys are `none`. -/
structure HistEvent where
  action : String
  «at» : Rat
  status : Option String
  reviewer : Option String
  deriving Repr, DecidableEq

structure PromotionRecord where
  id : Nat
  employee_id : Nat
  from_title : String
  to_title : String
  effective_date : String
  reason : Option String
  status : String
  approver : Option String
  hr_reviewer : Option String
  history : List HistEvent
  deriving Repr, DecidableEq

structure Approval where
  approver : String
  level : String
  approved : Bool
  «at» : Rat
  deriving Repr, DecidableEq

structure SalaryRecord where
  id : Nat
  employee_id : Nat
  current_salary : Rat
  proposed_salary : Rat
  effective_date : String
  reason : Option String
  status : String
  required_level : String
  approvals : List Approval
  created_at : Rat
  deriving Repr, DecidableEq

structure StepItem where
  name : String
  completed : Bool
  deriving Repr, DecidableEq

structure StepNote where
  step : String
  note : String
  «at» : Rat
  deriving Repr, DecidableEq

structure OnboardingRecord where
  id : Nat
  employee_id : Nat
  start_date : String
  equipment : String
  buddy : Option String
  status : String
  steps : List StepItem
  notes : List StepNote
  created_at : Rat
  hr_reviewer : Option String
  completed_at : Option Rat
  deriving Repr, DecidableEq

structure OffboardingRecord where
  id : Nat
  employee_id : Nat
  last_workday : String
  reason : String
  manager : String
  status : String
  steps : List StepItem
  notes : List StepNote
  created_at : Rat
  hr_reviewer : Option String
  completed_at : Option Rat
  deriving Repr, DecidableEq

structure Exam where
  score : Int
  passed : Bool
  submitted_at : Rat
  deriving Repr, DecidableEq

structure TrainingRecord where
  id : Nat
  name : String
  capacity : Int
  trainer : String
  enrolled : List Nat
  completed : List Nat
  exams : List (Nat × Exam)
  created_at : Rat
  deriving Repr, DecidableEq

/-- The mutable application state set up by `create_app` (main.py 349-376).
The two `Option` fields model `app.state` attributes that `get_system_stats`
reads but that `create_app` never initializes and no handler ever assigns:
`none` means the attribute is absent, so reading it raises `AttributeError`. -/
structure AppState where
  departments : List (Nat × Department)
  employees : List (Nat × Employee)
  attendance : List AttendanceRec
  leave_requests : List (Nat × LeaveRecord)
  travel_requests : List (Nat × TravelRecord)
  promotion_requests : List (Nat × PromotionRecord)
  salary_adjustments : List (Nat × SalaryRecord)
  onboarding_cases : List (Nat × OnboardingRecord)
  offboarding_cases : List (Nat × OffboardingRecord)
  trainings : List (Nat × TrainingRecord)
  salary_requests : Option (List (Nat × SalaryRecord))
  training_enrollments : Option (List Nat)
  next_department_id : Nat
  next_employee_id : Nat
  next_promotion_id : Nat
  next_leave_id : Nat
  next_travel_id : Nat
  next_salary_id : Nat
  next_onboarding_id : Nat
  next_offboarding_id : Nat
  next_training_id : Nat
  deriving Repr, DecidableEq

/-- The state produced by `create_app` before any request is served. -/
def mkInitialState : AppState where
  departments := []
  employees := []
  attendance := []
  leave_requests := []
  travel_requests := []
  promotion_requests := []
  salary_adjustments := []
  onboarding_cases := []
  offboarding_cases := []
  trainings := []
  salary_requests := none
  training_enrollments := none
  next_department_id := 1
  next_employee_id := 1000
  next_promotion_id := 1
  next_leave_id := 1
  next_travel_id := 1
  next_salary_id := 1
  next_onboarding_id := 1
  next_offboarding_id := 1
  next_training_id := 1

/-- Result of a handler: either an HTTP error together with the state at
the moment the exception was raised, or the response record and new state. -/
abbrev HandlerResult (α : Type) := Except (Err × AppState) (α × AppState)

structure DepartmentCreate where
  name : String
  deriving Repr, DecidableEq

structure EmployeeCreate where
  name : String
  department_id : Nat
  title : String
  deriving Repr, DecidableEq

structure AttendancePayload where
  status : String
  note : Option String
  timestamp : Option Rat
  deriving Repr, DecidableEq

structure LeaveRequestCreate where
  employee_id : Nat
  leave_type : String
  days : Int
  reason : Option String
  deriving Repr, DecidableEq

structure LeaveDecisionPayload where
  approved : Bool
  approver : String
  deriving Repr, DecidableEq

structure LeaveReviewPayload where
  verified : Bool
  reviewer : String
  deriving Repr, DecidableEq

structure TravelRequestCreatePayload where
  employee_id : Nat
  destination : String
  days : Int
  reason : Option String
  deriving Repr, DecidableEq

structure TravelDecisionPayload where
  approved : Bool
  approver : String
  deriving Repr, DecidableEq

structure TravelReviewPayload where
  verified : Bool
  reviewer : String
  deriving Repr, DecidableEq

structure PromotionRequestPayload where
  employee_id : Nat
  new_title : String
  effective_date : String
  reason : Option String
  deriving Repr, DecidableEq

structure PromotionDecisionPayload where
  approved : Bool
  approver : String
  deriving Repr, DecidableEq

structure PromotionFinalizePayload where
  hr_reviewer : String
  deriving Repr, DecidableEq

structure SalaryAdjustRequestPayload where
  employee_id : Nat
  current_salary : Rat
  proposed_salary : Rat
  effective_date : String
  reason : Option String
  deriving Repr, DecidableEq

structure SalaryAdjustDecisionPayload where
  approved : Bool
  approver : String
  level : String
  deriving Repr, DecidableEq

structure OnboardingCreatePayload where
  employee_id : Nat
  start_date : String
  equipment : String
  buddy : Option String
  deriving Repr, DecidableEq

structure OnboardingStepPayload where
  step : String
  completed : Bool
  note : Option String
  deriving Repr, DecidableEq

structure OnboardingFinalizePayload where
  hr_reviewer : String
  deriving Repr, DecidableEq

structure OffboardingCreatePayload where
  employee_id : Nat
  last_workday : String
  reason : String
  manager : String
  deriving Repr, DecidableEq

structure OffboardingStepPayload where
  step : String
  completed : Bool
  note : Option String
  deriving Repr, DecidableEq

structure OffboardingFinalizePayload where
  hr_reviewer : String
  deriving Repr, DecidableEq

structure TrainingCreatePayload where
  name : String
  capacity : Int
  trainer : String
  deriving Repr, DecidableEq

structure TrainingEnrollPayload where
  employee_id : Nat
  status : Option String
  deriving Repr, DecidableEq

structure TrainingCompletePayload where
  employee_id : Nat
  score : Int
  deriving Repr, DecidableEq

structure TrainingExamPayload where
  employee_id : Nat
  score : Int
  deriving Repr, DecidableEq

/-- POST /departments (main.py 468-476). -/
def create_department (s : AppState) (payload : DepartmentCreate) :
    HandlerResult Department :=
  if pyStrip payload.name = "" then
    .error (⟨400, "invalid department name"⟩, s)
  else
    let department_id := s.next_department_id
    let s := { s with next_department_id := s.next_department_id + 1 }
    let dept : Department := { id := department_id, name := payload.name }
    let s := { s with departments := dictSet s.departments department_id dept }
    .ok (dept, s)

/-- POST /employees (main.py 512-527). -/
def create_employee (s : AppState) (payload : EmployeeCreate) :
    HandlerResult Employee :=
  if ¬ (hasKey s.departments payload.department_id) then
    .error (⟨404, "department not found"⟩, s)
  else
    let employee_id := s.next_employee_id
    let s := { s with next_employee_id := s.next_employee_id + 1 }
    let employee : Employee :=
      { id := employee_id, name := payload.name,
        department_id := payload.department_id, title := payload.title }
    let s := { s with employees := dictSet s.employees employee_id employee }
    .ok (employee, s)

/-- POST /promotions/requests (main.py 581-619). -/
def create_promotion_request (s : AppState) (payload : PromotionRequestPayload)
    (now : Rat) : HandlerResult PromotionRecord :=
  match lookup s.employees payload.employee_id with
  | none => .error (⟨404, "employee not found"⟩, s)
  | some employee =>
    if pyStrip payload.new_title = "" then
      .error (⟨400, "invalid title"⟩, s)
    else if payload.effective_date = "" ∨ payload.effective_date.length ≠ 10 then
      .error (⟨400, "invalid effective date"⟩, s)
    else
      let request_id := s.next_promotion_id
      let s := { s with next_promotion_id := s.next_promotion_id + 1 }
      let record : PromotionRecord := {
        id := request_id,
        employee_id := payload.employee_id,
        from_title := employee.title,
        to_title := payload.new_title,
        effective_date := payload.effective_date,
        reason := payload.reason,
        status := "pending",
        approver := none,
        hr_reviewer := none,
        history := [{ action := "created", «at» := now, status := none, reviewer := none }] }
      let s := { s with promotion_requests := dictSet s.promotion_requests request_id record }
      .ok (record, s)

/-- POST /promotions/requests/{request_id}/decision (main.py 621-643). -/
def decide_promotion_request (s : AppState) (request_id : Nat)
    (payload : PromotionDecisionPayload) (now : Rat) : HandlerResult PromotionRecord :=
  match lookup s.promotion_requests request_id with
  | none => .error (⟨404, "promotion request not found"⟩, s)
  | some record =>
    if record.status ≠ "pending" then
      .error (⟨409, "promotion request already decided"⟩, s)
    else
      let status := if payload.approved then "approved" else "rejected"
      let record := { record with
        status := status,
        approver := some payload.approver,
        history := record.history ++
          [{ action := "decision", «at» := now, status := some status, reviewer := none }] }
      let s := { s with promotion_requests := dictSet s.promotion_requests request_id record }
      .ok (record, s)

/-- POST /promotions/requests/{request_id}/finalize (main.py 645-671).
The idempotency guard is Python `if record["hr_reviewer"]:`, a truthiness
test, hence `truthyOptStr`: an empty reviewer string does not count as
finalized. -/
def finalize_promotion_request (s : AppState) (request_id : Nat)
    (payload : PromotionFinalizePayload) (now : Rat) : HandlerResult PromotionRecord :=
  match lookup s.promotion_requests request_id with
  | none => .error (⟨404, "promotion request not found"⟩, s)
  | some record =>
    if record.status ≠ "approved" then
      .error (⟨409, "promotion not approved"⟩, s)
    else if truthyOptStr record.hr_reviewer then
      .error (⟨409, "promotion already finalized"⟩, s)
    else
      match lookup s.employees record.employee_id with
      | none => .error (⟨404, "employee not found"⟩, s)
      | some employee =>
        let employee := { employee with title := record.to_title }
        let s := { s with employees := dictSet s.employees record.employee_id employee }
        let record := { record with
          hr_reviewer := some payload.hr_reviewer,
          history := record.history ++
            [{ action := "finalized", «at» := now, status := none,
               reviewer := some payload.hr_reviewer }] }
        let s := { s with promotion_requests := dictSet s.promotion_requests request_id record }
        .ok (record, s)

/-- POST /salary/adjustments (main.py 682-722). -/
def create_salary_adjustment (s : AppState) (payload : SalaryAdjustRequestPayload)
    (now : Rat) : HandlerResult SalaryRecord :=
  if ¬ (hasKey s.employees payload.employee_id) then
    .error (⟨404, "employee not found"⟩, s)
  else if payload.current_salary ≤ 0 ∨ payload.proposed_salary ≤ 0 then
    .error (⟨400, "invalid salary"⟩, s)
  else if payload.proposed_salary = payload.current_salary then
    .error (⟨400, "no change in salary"⟩, s)
  else if payload.effective_date = "" ∨ payload.effective_date.length ≠ 10 then
    .error (⟨400, "invalid effective date"⟩, s)
  else
    let change_ratio := (payload.proposed_salary - payload.current_salary) / payload.current_salary
    let approval_level :=
      if change_ratio ≥ 0.2 then "director"
      else if change_ratio ≥ 0.1 then "manager"
      else "hr"
    let request_id := s.next_salary_id
    let s := { s with next_salary_id := s.next_salary_id + 1 }
    let record : SalaryRecord := {
      id := request_id,
      employee_id := payload.employee_id,
      current_salary := payload.current_salary,
      proposed_salary := payload.proposed_salary,
      effective_date := payload.effective_date,
      reason := payload.reason,
      status := "pending",
      required_level := approval_level,
      approvals := [],
      created_at := now }
    let s := { s with salary_adjustments := dictSet s.salary_adjustments request_id record }
    .ok (record, s)

/-- POST /salary/adjustments/{request_id}/decision (main.py 724-758). -/
def decide_salary_adjustment (s : AppState) (request_id : Nat)
    (payload : SalaryAdjustDecisionPayload) (now : Rat) : HandlerResult SalaryRecord :=
  match lookup s.salary_adjustments request_id with
  | none => .error (⟨404, "salary request not found"⟩, s)
  | some record =>
    if record.status ≠ "pending" then
      .error (⟨409, "salary request already decided"⟩, s)
    else
      let level := pyLower (pyStrip payload.level)
      if level ∉ levelOrder then
        .error (⟨400, "invalid approval level"⟩, s)
      else
        let record := { record with approvals := record.approvals ++
          [{ approver := payload.approver, level := level,
             approved := payload.approved, «at» := now }] }
        let record :=
          if ¬ payload.approved then { record with status := "rejected" }
          else if levelOrder.indexOf level ≥ levelOrder.indexOf record.required_level then
            { record with status := "approved" }
          else record
        let s := { s with salary_adjustments := dictSet s.salary_adjustments request_id record }
        .ok (record, s)

/-- POST /onboarding/cases (main.py 760-797). -/
def create_onboarding_case (s : AppState) (payload : OnboardingCreatePayload)
    (now : Rat) : HandlerResult OnboardingRecord :=
  if ¬ (hasKey s.employees payload.employee_id) then
    .error (⟨404, "employee not found"⟩, s)
  else if payload.start_date = "" ∨ payload.start_date.length ≠ 10 then
    .error (⟨400, "invalid start date"⟩, s)
  else if pyStrip payload.equipment = "" then
    .error (⟨400, "invalid equipment"⟩, s)
  else
    let onboarding_id := s.next_onboarding_id
    let s := { s with next_onboarding_id := s.next_onboarding_id + 1 }
    let steps : List StepItem := [
      { name := "account_setup", completed := false },
      { name := "equipment_handover", completed := false },
      { name := "policy_briefing", completed := false },
      { name := "security_training", completed := false } ]
    let record : OnboardingRecord := {
      id := onboarding_id,
      employee_id := payload.employee_id,
      start_date := payload.start_date,
      equipment := payload.equipment,
      buddy := payload.buddy,
      status := "in_progress",
      steps := steps,
      notes := [],
      created_at := now,
      hr_reviewer := none,
      completed_at := none }
    let s := { s with onboarding_cases := dictSet s.onboarding_cases onboarding_id record }
    .ok (record, s)

/-- Update the first checklist item named `step`: the for-loop in the step
handlers mutates only the first match and returns immediately. -/
def updateFirstStep : List StepItem → String → Bool → List StepItem
  | [], _, _ => []
  | item :: rest, step, completed =>
    if item.name = step then { item with completed := completed } :: rest
    else item :: updateFirstStep rest step completed

/-- POST /onboarding/cases/{case_id}/steps (main.py 799-822). -/
def complete_onboarding_step (s : AppState) (case_id : Nat)
    (payload : OnboardingStepPayload) (now : Rat) : HandlerResult OnboardingRecord :=
  match lookup s.onboarding_cases case_id with
  | none => .error (⟨404, "onboarding case not found"⟩, s)
  | some record =>
    let step := pyLower (pyStrip payload.step)
    if record.steps.any (fun item => item.name == step) then
      let record := { record with
        steps := updateFirstStep record.steps step payload.completed,
        notes := if truthyOptStr payload.note then
            record.notes ++ [{ step := step, note := payload.note.getD "", «at» := now }]
          else record.notes }
      let s := { s with onboarding_cases := dictSet s.onboarding_cases case_id record }
      .ok (record, s)
    else
      .error (⟨404, "step not found"⟩, s)

/-- POST /onboarding/cases/{case_id}/finalize (main.py 824-841).  Note the
incomplete-checklist failure is HTTP 400 in the source. -/
def finalize_onboarding (s : AppState) (case_id : Nat)
    (payload : OnboardingFinalizePayload) (now : Rat) : HandlerResult OnboardingRecord :=
  match lookup s.onboarding_cases case_id with
  | none => .error (⟨404, "onboarding case not found"⟩, s)
  | some record =>
    if record.status ≠ "in_progress" then
      .error (⟨409, "onboarding already finalized"⟩, s)
    else if ¬ (record.steps.all fun step => step.completed) then
      .error (⟨400, "steps not completed"⟩, s)
    else
      let record :=
        { record with
          status := "completed",
          hr_reviewer := some payload.hr_reviewer, completed_at := some now }
      let s := { s with onboarding_cases := dictSet s.onboarding_cases case_id record }
      .ok (record, s)

/-- POST /offboarding/cases (main.py 843-882). -/
def create_offboarding_case (s : AppState) (payload : OffboardingCreatePayload)
    (now : Rat) : HandlerResult OffboardingRecord :=
  if ¬ (hasKey s.employees payload.employee_id) then
    .error (⟨404, "employee not found"⟩, s)
  else if payload.last_workday = "" ∨ payload.last_workday.length ≠ 10 then
    .error (⟨400, "invalid last workday"⟩, s)
  else
    let reason := pyLower (pyStrip payload.reason)
    if reason ∉ ["resignation", "termination", "retirement"] then
      .error (⟨400, "invalid offboarding reason"⟩, s)
    else
      let steps : List StepItem := [
        { name := "knowledge_transfer", completed := false },
        { name := "account_deactivation", completed := false },
        { name := "asset_return", completed := false },
        { name := "exit_interview", completed := false } ]
      let case_id := s.next_offboarding_id
      let s := { s with next_offboarding_id := s.next_offboarding_id + 1 }
      let record : OffboardingRecord := {
        id := case_id,
        employee_id := payload.employee_id,
        last_workday := payload.last_workday,
        reason := reason,
        manager := payload.manager,
        status := "in_progress",
        steps := steps,
        notes := [],
        created_at := now,
        hr_reviewer := none,
        completed_at := none }
      let s := { s with offboarding_cases := dictSet s.offboarding_cases case_id record }
      .ok (record, s)

/-- POST /offboarding/cases/{case_id}/steps (main.py 884-907). -/
def complete_offboarding_step (s : AppState) (case_id : Nat)
    (payload : OffboardingStepPayload) (now : Rat) : HandlerResult OffboardingRecord :=
  match lookup s.offboarding_cases case_id with
  | none => .error (⟨404, "offboarding case not found"⟩, s)
  | some record =>
    let step := pyLower (pyStrip payload.step)
    if record.steps.any (fun item => item.name == step) then
      let record := { record with
        steps := updateFirstStep record.steps step payload.completed,
        notes := if truthyOptStr payload.note then
            record.notes ++ [{ step := step, note := payload.note.getD "", «at» := now }]
          else record.notes }
      let s := { s with offboarding_cases := dictSet s.offboarding_cases case_id record }
      .ok (record, s)
    else
      .error (⟨404, "step not found"⟩, s)

/-- POST /offboarding/cases/{case_id}/finalize (main.py 909-928). -/
def finalize_offboarding (s : AppState) (case_id : Nat)
    (payload : OffboardingFinalizePayload) (now : Rat) : HandlerResult OffboardingRecord :=
  match lookup s.offboarding_cases case_id with
  | none => .error (⟨404, "offboarding case not found"⟩, s)
  | some record =>
    if record.status ≠ "in_progress" then
      .error (⟨409, "offboarding already finalized"⟩, s)
    else if ¬ (record.steps.all fun step => step.completed) then
      .error (⟨400, "steps not completed"⟩, s)
    else
      let record :=
        { record with
          status := "completed",
          hr_reviewer := some payload.hr_reviewer, completed_at := some now }
      let s := { s with offboarding_cases := dictSet s.offboarding_cases case_id record }
      .ok (record, s)

/-- POST /trainings (main.py 930-950). -/
def create_training (s : AppState) (payload : TrainingCreatePayload) (now : Rat) :
    HandlerResult TrainingRecord :=
  if pyStrip payload.name = "" then
    .error (⟨400, "invalid training name"⟩, s)
  else if payload.capacity ≤ 0 then
    .error (⟨400, "invalid capacity"⟩, s)
  else
    let training_id := s.next_training_id
    let s := { s with next_training_id := s.next_training_id + 1 }
    let record : TrainingRecord := {
      id := training_id,
      name := payload.name,
      capacity := payload.capacity,
      trainer := payload.trainer,
      enrolled := [],
      completed := [],
      exams := [],
      created_at := now }
    let s := { s with trainings := dictSet s.trainings training_id record }
    .ok (record, s)

/-- POST /trainings/{training_id}/enroll (main.py 952-973). -/
def enroll_training (s : AppState) (training_id : Nat)
    (payload : TrainingEnrollPayload) : HandlerResult TrainingRecord :=
  match lookup s.trainings training_id with
  | none => .error (⟨404, "training not found"⟩, s)
  | some training =>
    if ¬ (hasKey s.employees payload.employee_id) then
      .error (⟨404, "employee not found"⟩, s)
    else if payload.employee_id ∈ training.enrolled then
      .error (⟨409, "already enrolled"⟩, s)
    else if (training.enrolled.length : Int) ≥ training.capacity then
      .error (⟨409, "training is full"⟩, s)
    else
      let training := { training with enrolled := training.enrolled ++ [payload.employee_id] }
      let s := { s with trainings := dictSet s.trainings training_id training }
      .ok (training, s)

/-- POST /trainings/{training_id}/exam (main.py 975-1000).  Re-submission is
never guarded: the new result overwrites `exams[employee_id]`. -/
def submit_training_exam (s : AppState) (training_id : Nat)
    (payload : TrainingExamPayload) (now : Rat) : HandlerResult TrainingRecord :=
  match lookup s.trainings training_id with
  | none => .error (⟨404, "training not found"⟩, s)
  | some training =>
    if payload.employee_id ∉ training.enrolled then
      .error (⟨409, "not enrolled"⟩, s)
    else if payload.score < 0 ∨ payload.score > 100 then
      .error (⟨400, "invalid score"⟩, s)
    else
      let passed := decide (payload.score ≥ 60)
      let exam : Exam := { score := payload.score, passed := passed, submitted_at := now }
      let training :=
        { training with exams := dictSet training.exams payload.employee_id exam }
      let s := { s with trainings := dictSet s.trainings training_id training }
      .ok (training, s)

/-- POST /trainings/{training_id}/complete (main.py 1002-1026).  The Python
`if not exam or not exam["passed"]` is split into the missing-exam and
failed-exam branches, both raising 400 "exam not passed". -/
def complete_training (s : AppState) (training_id : Nat)
    (payload : TrainingCompletePayload) (now : Rat) : HandlerResult TrainingRecord :=
  match lookup s.trainings training_id with
  | none => .error (⟨404, "training not found"⟩, s)
  | some training =>
    if payload.employee_id ∉ training.enrolled then
      .error (⟨409, "not enrolled"⟩, s)
    else
      match lookup training.exams payload.employee_id with
      | none => .error (⟨400, "exam not passed"⟩, s)
      | some exam =>
        if ¬ exam.passed then
          .error (⟨400, "exam not passed"⟩, s)
        else if payload.score < 0 ∨ payload.score > 100 then
          .error (⟨400, "invalid score"⟩, s)
        else if payload.employee_id ∈ training.completed then
          .error (⟨409, "already completed"⟩, s)
        else
          let training := { training with completed := training.completed ++ [payload.employee_id] }
          let s := { s with trainings := dictSet s.trainings training_id training }
          .ok (training, s)

/-- POST /leave/requests (main.py 1371-1395). -/
def create_leave_request (s : AppState) (payload : LeaveRequestCreate) (now : Rat) :
    HandlerResult LeaveRecord :=
  if ¬ (hasKey s.employees payload.employee_id) then
    .error (⟨404, "employee not found"⟩, s)
  else if payload.days ≤ 0 then
    .error (⟨400, "invalid leave days"⟩, s)
  else
    let leave_type := pyLower (pyStrip payload.leave_type)
    if leave_type ∉ ["annual", "sick", "personal"] then
      .error (⟨400, "invalid leave type"⟩, s)
    else
      let leave_id := s.next_leave_id
      let s := { s with next_leave_id := s.next_leave_id + 1 }
      let record : LeaveRecord := {
        id := leave_id,
        employee_id := payload.employee_id,
        leave_type := leave_type,
        days := payload.days,
        reason := payload.reason,
        status := "pending",
        approver := none,
        created_at := now,
        decided_at := none }
      let s := { s with leave_requests := dictSet s.leave_requests leave_id record }
      .ok (record, s)

/-- POST /leave/requests/{leave_id}/decision (main.py 1397-1410). -/
def decide_leave (s : AppState) (leave_id : Nat) (payload : LeaveDecisionPayload)
    (now : Rat) : HandlerResult LeaveRecord :=
  match lookup s.leave_requests leave_id with
  | none => .error (⟨404, "leave request not found"⟩, s)
  | some record =>
    if record.status ≠ "pending" then
      .error (⟨409, "leave request already decided"⟩, s)
    else
      let status := if payload.approved then "approved" else "rejected"
      let record :=
        { record with
          status := status, approver := some payload.approver,
          decided_at := some now }
      let s := { s with leave_requests := dictSet s.leave_requests leave_id record }
      .ok (record, s)

/-- POST /leave/requests/{leave_id}/review (main.py 1412-1431).  The
already-reviewed guard is Python `if record.get("reviewed_at"):`, a
truthiness test on the stored timestamp. -/
def review_leave (s : AppState) (leave_id : Nat) (payload : LeaveReviewPayload)
    (now : Rat) : HandlerResult LeaveRecord :=
  match lookup s.leave_requests leave_id with
  | none => .error (⟨404, "leave request not found"⟩, s)
  | some record =>
    if record.status ≠ "approved" then
      .error (⟨409, "leave request not approved"⟩, s)
    else if truthyOptRat record.reviewed_at then
      .error (⟨409, "leave request already reviewed"⟩, s)
    else
      let record :=
        { record with
          reviewed_at := some now,
          reviewer := some payload.reviewer,
          review_status := some (if payload.verified then "verified" else "recheck") }
      let s := { s with leave_requests := dictSet s.leave_requests leave_id record }
      .ok (record, s)

/-- POST /travel/requests (main.py 1028-1059). -/
def create_travel_request (s : AppState) (payload : TravelRequestCreatePayload)
    (now : Rat) : HandlerResult TravelRecord :=
  if ¬ (hasKey s.employees payload.employee_id) then
    .error (⟨404, "employee not found"⟩, s)
  else if payload.days ≤ 0 then
    .error (⟨400, "invalid travel days"⟩, s)
  else if pyStrip payload.destination = "" then
    .error (⟨400, "invalid destination"⟩, s)
  else
    let request_id := s.next_travel_id
    let s := { s with next_travel_id := s.next_travel_id + 1 }
    let record : TravelRecord := {
      id := request_id,
      employee_id := payload.employee_id,
      destination := payload.destination,
      days := payload.days,
      reason := payload.reason,
      status := "pending",
      approver := none,
      reviewer := none,
      created_at := now }
    let s := { s with travel_requests := dictSet s.travel_requests request_id record }
    .ok (record, s)

/-- POST /travel/requests/{request_id}/decision (main.py 1062-1079). -/
def decide_travel (s : AppState) (request_id : Nat) (payload : TravelDecisionPayload)
    (now : Rat) : HandlerResult TravelRecord :=
  match lookup s.travel_requests request_id with
  | none => .error (⟨404, "travel request not found"⟩, s)
  | some record =>
    if record.status ≠ "pending" then
      .error (⟨409, "travel request already decided"⟩, s)
    else
      let status := if payload.approved then "approved" else "rejected"
      let record :=
        { record with
          status := status, approver := some payload.approver,
          decided_at := some now }
      let s := { s with travel_requests := dictSet s.travel_requests request_id record }
      .ok (record, s)

/-- POST /travel/requests/{request_id}/review (main.py 1081-1102).  Same
truthiness guard on the stored `reviewed_at` as the leave review. -/
def review_travel (s : AppState) (request_id : Nat) (payload : TravelReviewPayload)
    (now : Rat) : HandlerResult TravelRecord :=
  match lookup s.travel_requests request_id with
  | none => .error (⟨404, "travel request not found"⟩, s)
  | some record =>
    if record.status ≠ "approved" then
      .error (⟨409, "travel request not approved"⟩, s)
    else if truthyOptRat record.reviewed_at then
      .error (⟨409, "travel request already reviewed"⟩, s)
    else
      let record :=
        { record with
          reviewed_at := some now,
          reviewer := some payload.reviewer,
          review_status := some (if payload.verified then "verified" else "recheck") }
      let s := { s with travel_requests := dictSet s.travel_requests request_id record }
      .ok (record, s)

/-- Most recent attendance record for an employee: the generator over
`reversed(app.state.attendance)` in `checkin` (main.py 1124-1127). -/
def lastAttendance (s : AppState) (employee_id : Nat) : Option AttendanceRec :=
  s.attendance.reverse.find? (fun r => r.employee_id == employee_id)

/-- POST /employees/{employee_id}/attendance (main.py 1104-1139).  The
payload carries the already-parsed optional client timestamp; the three
calls to `time.time()` are collapsed into the single `now` argument. -/
def checkin (s : AppState) (employee_id : Nat) (payload : AttendancePayload)
    (now : Rat) : HandlerResult String :=
  if ¬ (hasKey s.employees employee_id) then
    .error (⟨404, "employee not found"⟩, s)
  else
    let status := pyLower payload.status
    if status ∉ ["in", "out"] then
      .error (⟨400, "invalid attendance status"⟩, s)
    else
      let event_time := match payload.timestamp with
        | none => now
        | some ts => ts
      if event_time > now + 300 then
        .error (⟨400, "timestamp in future"⟩, s)
      else if event_time < now - 86400 then
        .error (⟨400, "timestamp too old"⟩, s)
      else if (match lastAttendance s employee_id with
          | some last_record => last_record.status == status
          | none => false) then
        .error (⟨409, "duplicate attendance status"⟩, s)
      else
        let record : AttendanceRec :=
          { employee_id := employee_id, status := status,
            note := payload.note, ts := event_time }
        let s := { s with attendance := s.attendance ++ [record] }
        .ok ("ok", s)

/-- The response body of GET /stats, flattened. -/
structure Stats where
  departments : Nat
  employees : Nat
  leave_total : Nat
  leave_approved : Nat
  leave_pending : Nat
  promotion_total : Nat
  promotion_finalized : Nat
  salary_total : Nat
  salary_approved : Nat
  onboarding_total : Nat
  onboarding_completed : Nat
  offboarding_total : Nat
  offboarding_completed : Nat
  training_total : Nat
  training_enrollment_total : Nat
  deriving Repr, DecidableEq

/-- GET /stats (main.py 404-466).  The handler reads
`app.state.salary_requests` and `app.state.training_enrollments`;
`create_app` never initializes these attributes and no handler assigns
them, so the attribute read raises `AttributeError` (an HTTP 500 from the
framework), modelled as `Except.error` naming the missing attribute. -/
def get_system_stats (s : AppState) : Except String Stats :=
  let total_departments := s.departments.length
  let total_employees := s.employees.length
  let total_leave_requests := s.leave_requests.length
  let approved_leaves := s.leave_requests.countP (fun kv => kv.2.status == "approved")
  let pending_leaves := s.leave_requests.countP (fun kv => kv.2.status == "pending")
  let total_promotion_requests := s.promotion_requests.length
  let finalized_promotions := s.promotion_requests.countP (fun kv => truthyOptStr kv.2.hr_reviewer)
  match s.salary_requests with
  | none => .error "AttributeError: salary_requests"
  | some salary_requests_tbl =>
    let total_salary_requests := salary_requests_tbl.length
    let approved_salary_adjustments := salary_requests_tbl.countP (fun kv => kv.2.status == "approved")
    let total_onboarding := s.onboarding_cases.length
    let completed_onboarding := s.onboarding_cases.countP (fun kv => kv.2.status == "completed")
    let total_offboarding := s.offboarding_cases.length
    let completed_offboarding := s.offboarding_cases.countP (fun kv => kv.2.status == "completed")
    let total_trainings := s.trainings.length
    match s.training_enrollments with
    | none => .error "AttributeError: training_enrollments"
    | some training_enrollments_tbl =>
      let total_training_enrollments := training_enrollments_tbl.length
      .ok {
        departments := total_departments,
        employees := total_employees,
        leave_total := total_leave_requests,
        leave_approved := approved_leaves,
        leave_pending := pending_leaves,
        promotion_total := total_promotion_requests,
        promotion_finalized := finalized_promotions,
        salary_total := total_salary_requests,
        salary_approved := approved_salary_adjustments,
        onboarding_total := total_onboarding,
        onboarding_completed := completed_onboarding,
        offboarding_total := total_offboarding,
        offboarding_completed := completed_offboarding,
        training_total := total_trainings,
        training_enrollment_total := total_training_enrollments }

/-- All keys of a store are below the bound: the allocation invariant
relating each store to its `next_*_id` counter. -/
def keysBelow {α : Type} (m : List (Nat × α)) (n : Nat) : Prop :=
  ∀ kv ∈ m, kv.1 < n

instance {α : Type} (m : List (Nat × α)) (n : Nat) : Decidable (keysBelow m n) := by
  unfold keysBelow
  infer_instance

/-- The id-allocation invariant over all workflow kinds: every key of each
kind's store sits below that kind's next-id counter. -/
def idInvariant (s : AppState) : Prop :=
  keysBelow s.leave_requests s.next_leave_id ∧
  keysBelow s.travel_requests s.next_travel_id ∧
  keysBelow s.promotion_requests s.next_promotion_id ∧
  keysBelow s.salary_adjustments s.next_salary_id ∧
  keysBelow s.onboarding_cases s.next_onboarding_id ∧
  keysBelow s.offboarding_cases s.next_offboarding_id ∧
  keysBelow s.trainings s.next_training_id

/-- Every stored exam's `passed` flag agrees with its score against the
pass threshold 60; this is how `submit_training_exam` writes them. -/
def examsConsistent (tr : TrainingRecord) : Prop :=
  ∀ kv ∈ tr.exams, kv.2.passed = decide (kv.2.score ≥ 60)

instance (tr : TrainingRecord) : Decidable (examsConsistent tr) := by
  unfold examsConsistent
  infer_instance

/-- One successful request among the handlers embedded in this file: the
application-state transition relation of the modelled program. -/
inductive Step : AppState → AppState → Prop
  | ofCreateDepartment (s s' : AppState) (p : DepartmentCreate) (r : Department)
      (h : create_department s p = Except.ok (r, s')) : Step s s'
  | ofCreateEmployee (s s' : AppState) (p : EmployeeCreate) (r : Employee)
      (h : create_employee s p = Except.ok (r, s')) : Step s s'
  | ofCreatePromotionRequest (s s' : AppState) (p : PromotionRequestPayload) (now : Rat)
      (r : PromotionRecord) (h : create_promotion_request s p now = Except.ok (r, s')) : Step s s'
  | ofDecidePromotionRequest (s s' : AppState) (request_id : Nat) (p : PromotionDecisionPayload)
      (now : Rat) (r : PromotionRecord)
      (h : decide_promotion_request s request_id p now = Except.ok (r, s')) : Step s s'
  | ofFinalizePromotionRequest (s s' : AppState) (request_id : Nat) (p : PromotionFinalizePayload)
      (now : Rat) (r : PromotionRecord)
      (h : finalize_promotion_request s request_id p now = Except.ok (r, s')) : Step s s'
  | ofCreateSalaryAdjustment (s s' : AppState) (p : SalaryAdjustRequestPayload) (now : Rat)
      (r : SalaryRecord) (h : create_salary_adjustment s p now = Except.ok (r, s')) : Step s s'
  | ofDecideSalaryAdjustment (s s' : AppState) (request_id : Nat) (p : SalaryAdjustDecisionPayload)
      (now : Rat) (r : SalaryRecord)
      (h : decide_salary_adjustment s request_id p now = Except.ok (r, s')) : Step s s'
  | ofCreateOnboardingCase (s s' : AppState) (p : OnboardingCreatePayload) (now : Rat)
      (r : OnboardingRecord) (h : create_onboarding_case s p now = Except.ok (r, s')) : Step s s'
  | ofCompleteOnboardingStep (s s' : AppState) (case_id : Nat) (p : OnboardingStepPayload)
      (now : Rat) (r : OnboardingRecord)
      (h : complete_onboarding_step s case_id p now = Except.ok (r, s')) : Step s s'
  | ofFinalizeOnboarding (s s' : AppState) (case_id : Nat) (p : OnboardingFinalizePayload)
      (now : Rat) (r : OnboardingRecord)
      (h : finalize_onboarding s case_id p now = Except.ok (r, s')) : Step s s'
  | ofCreateOffboardingCase (s s' : AppState) (p : OffboardingCreatePayload) (now : Rat)
      (r : OffboardingRecord) (h : create_offboarding_case s p now = Except.ok (r, s')) : Step s s'
  | ofCompleteOffboardingStep (s s' : AppState) (case_id : Nat) (p : OffboardingStepPayload)
      (now : Rat) (r : OffboardingRecord)
      (h : complete_offboarding_step s case_id p now = Except.ok (r, s')) : Step s s'
  | ofFinalizeOffboarding (s s' : AppState) (case_id : Nat) (p : OffboardingFinalizePayload)
      (now : Rat) (r : OffboardingRecord)
      (h : finalize_offboarding s case_id p now = Except.ok (r, s')) : Step s s'
  | ofCreateTraining (s s' : AppState) (p : TrainingCreatePayload) (now : Rat)
      (r : TrainingRecord) (h : create_training s p now = Except.ok (r, s')) : Step s s'
  | ofEnrollTraining (s s' : AppState) (training_id : Nat) (p : TrainingEnrollPayload)
      (r : TrainingRecord) (h : enroll_training s training_id p = Except.ok (r, s')) : Step s s'
  | ofSubmitTrainingExam (s s' : AppState) (training_id : Nat) (p : TrainingExamPayload)
      (now : Rat) (r : TrainingRecord)
      (h : submit_training_exam s training_id p now = Except.ok (r, s')) : Step s s'
  | ofCompleteTraining (s s' : AppState) (training_id : Nat) (p : TrainingCompletePayload)
      (now : Rat) (r : TrainingRecord)
      (h : complete_training s training_id p now = Except.ok (r, s')) : Step s s'
  | ofCreateLeaveRequest (s s' : AppState) (p : LeaveRequestCreate) (now : Rat)
      (r : LeaveRecord) (h : create_leave_request s p now = Except.ok (r, s')) : Step s s'
  | ofDecideLeave (s s' : AppState) (leave_id : Nat) (p : LeaveDecisionPayload) (now : Rat)
      (r : LeaveRecord) (h : decide_leave s leave_id p now = Except.ok (r, s')) : Step s s'
  | ofReviewLeave (s s' : AppState) (leave_id : Nat) (p : LeaveReviewPayload) (now : Rat)
      (r : LeaveRecord) (h : review_leave s leave_id p now = Except.ok (r, s')) : Step s s'
  | ofCreateTravelRequest (s s' : AppState) (p : TravelRequestCreatePayload) (now : Rat)
      (r : TravelRecord) (h : create_travel_request s p now = Except.ok (r, s')) : Step s s'
  | ofDecideTravel (s s' : AppState) (request_id : Nat) (p : TravelDecisionPayload)
      (now : Rat) (r : TravelRecord)
      (h : decide_travel s request_id p now = Except.ok (r, s')) : Step s s'
  | ofReviewTravel (s s' : AppState) (request_id : Nat) (p : TravelReviewPayload)
      (now : Rat) (r : TravelRecord)
      (h : review_travel s request_id p now = Except.ok (r, s')) : Step s s'
  | ofCheckin (s s' : AppState) (employee_id : Nat) (p : AttendancePayload) (now : Rat)
      (r : String) (h : checkin s employee_id p now = Except.ok (r, s')) : Step s s'

/-- A state the application can be in: reachable from the `create_app`
state by a sequence of successful embedded requests (failed requests leave
the state unchanged, see the error-immutability theorem). -/
def Reachable (s : AppState) : Prop :=
  Relation.ReflTransGen Step mkInitialState s

/-! Concrete fixtures used by witnesses and counterexamples. -/

def deptEng : Department := { id := 1, name := "Eng" }

def empAlice : Employee :=
  { id := 1000, name := "Alice", department_id := 1, title := "Engineer" }

/-- A small base state: one department and one employee. -/
def stBase : AppState :=
  { mkInitialState with
    departments := [(1, deptEng)],
    employees := [(1000, empAlice)],
    next_department_id := 2,
    next_employee_id := 1001 }

def salaryRecPending : SalaryRecord :=
  { id := 1, employee_id := 1000, current_salary := 1000, proposed_salary := 1300,
    effective_date := "2026-01-01", reason := none, status := "pending",
    required_level := "director", approvals := [], created_at := 0 }

def stSalary : AppState :=
  { stBase with salary_adjustments := [(1, salaryRecPending)], next_salary_id := 2 }

def leaveRecPending : LeaveRecord :=
  { id := 1, employee_id := 1000, leave_type := "annual", days := 2, reason := none,
    status := "pending", approver := none, created_at := 0, decided_at := none }

def stLeave : AppState :=
  { stBase with leave_requests := [(1, leaveRecPending)], next_leave_id := 2 }

def leaveRecApproved : LeaveRecord :=
  { leaveRecPending with
    status := "approved", approver := some "manager_1", decided_at := some 5 }

def stLeaveDecided : AppState :=
  { stLeave with leave_requests := [(1, leaveRecApproved)] }

/-- The approved leave request of `stLeaveDecided` reviewed at timestamp
exactly 0. -/
def leaveRecReviewed0 : LeaveRecord :=
  { leaveRecApproved with
    reviewed_at := some 0, reviewer := some "hr_ops",
    review_status := some "verified" }

def stLeaveReviewed0 : AppState :=
  { stLeaveDecided with leave_requests := [(1, leaveRecReviewed0)] }

def travelRecApproved : TravelRecord :=
  { id := 1, employee_id := 1000, destination := "Tokyo", days := 3, reason := none,
    status := "approved", approver := some "manager_1", reviewer := none,
    created_at := 0, decided_at := some 1 }

def stTravel : AppState :=
  { stBase with travel_requests := [(1, travelRecApproved)], next_travel_id := 2 }

/-- The approved travel request of `stTravel` reviewed at timestamp
exactly 0. -/
def travelRecReviewed0 : TravelRecord :=
  { travelRecApproved with
    reviewed_at := some 0, reviewer := some "finance_1",
    review_status := some "verified" }

def stTravelReviewed0 : AppState :=
  { stTravel with travel_requests := [(1, travelRecReviewed0)] }

def onbIncomplete : OnboardingRecord :=
  { id := 1, employee_id := 1000, start_date := "2026-02-03", equipment := "laptop",
    buddy := some "alice", status := "in_progress",
    steps := [
      { name := "account_setup", completed := true },
      { name := "equipment_handover", completed := false },
      { name := "policy_briefing", completed := false },
      { name := "security_training", completed := false } ],
    notes := [], created_at := 0, hr_reviewer := none, completed_at := none }

def stOnb : AppState :=
  { stBase with onboarding_cases := [(1, onbIncomplete)], next_onboarding_id := 2 }

def trainingRec : TrainingRecord :=
  { id := 1, name := "Security 101", capacity := 2, trainer := "trainer_b",
    enrolled := [1000], completed := [],
    exams := [(1000, { score := 70, passed := true, submitted_at := 0 })],
    created_at := 0 }

def stTraining : AppState :=
  { stBase with trainings := [(1, trainingRec)], next_training_id := 2 }

def promoRecApproved : PromotionRecord :=
  { id := 1, employee_id := 1000, from_title := "Engineer", to_title := "Senior Engineer",
    effective_date := "2026-03-01", reason := none, status := "approved",
    approver := some "director_1", hr_reviewer := none, history := [] }

def stPromo : AppState :=
  { stBase with promotion_requests := [(1, promoRecApproved)], next_promotion_id := 2 }

/-- The promotion record after a finalize with the empty reviewer string. -/
def promoRecEmptyReviewer : PromotionRecord :=
  { promoRecApproved with
    hr_reviewer := some "",
    history := [{ action := "finalized", «at» := 0, status := none, reviewer := some "" }] }

/-- The state after finalizing `stPromo` with an empty reviewer string. -/
def stPromoTwice : AppState :=
  { stPromo with
    employees := [(1000, { empAlice with title := "Senior Engineer" })],
    promotion_requests := [(1, promoRecEmptyReviewer)] }

/-- The promotion record after finalizing `stPromo` with reviewer
"hr_lead" at time 2. -/
def promoRecFinalized : PromotionRecord :=
  { promoRecApproved with
    hr_reviewer := some "hr_lead",
    history := [{ action := "finalized", «at» := 2, status := none,
                  reviewer := some "hr_lead" }] }

/-- The state after finalizing `stPromo` with reviewer "hr_lead". -/
def stPromoFinalized : AppState :=
  { stPromo with
    employees := [(1000, { empAlice with title := "Senior Engineer" })],
    promotion_requests := [(1, promoRecFinalized)] }

/-- The salary adjustment record created on `stBase` for 1000 → 1100. -/
def salaryRecCreated : SalaryRecord :=
  { id := 1, employee_id := 1000, current_salary := 1000, proposed_salary := 1100,
    effective_date := "2026-02-01", reason := none, status := "pending",
    required_level := "manager", approvals := [], created_at := 6 }

/-- The state after that creation. -/
def stSalaryCreated : AppState :=
  { stBase with salary_adjustments := [(1, salaryRecCreated)], next_salary_id := 2 }

/-! Helper lemmas about the association-list dictionary operations. -/

theorem lookup_dictSet_self {α : Type} (m : List (Nat × α)) (k : Nat) (v : α) :
    lookup (dictSet m k v) k = some v := by
  induction m with
  | nil => simp [dictSet, lookup]
  | cons kv rest ih =>
    by_cases h : kv.1 = k
    · simp [dictSet, h, lookup]
    · simp [dictSet, h, lookup, ih]

theorem mem_dictSet {α : Type} {m : List (Nat × α)} {k : Nat} {v : α} {kv : Nat × α}
    (h : kv ∈ dictSet m k v) : kv = (k, v) ∨ kv ∈ m := by
  induction m with
  | nil => simpa [dictSet] using h
  | cons kv0 rest ih =>
    by_cases hk : kv0.1 = k
    · simp only [dictSet, if_pos hk, List.mem_cons] at h
      rcases h with h | h
      · exact Or.inl h
      · exact Or.inr (List.mem_cons_of_mem _ h)
    · simp only [dictSet, if_neg hk, List.mem_cons] at h
      rcases h with h | h
      · exact Or.inr (by simp [h])
      · rcases ih h with h' | h'
        · exact Or.inl h'
        · exact Or.inr (List.mem_cons_of_mem _ h')

theorem lookup_eq_none_of_keysBelow {α : Type} {m : List (Nat × α)} {n : Nat}
    (h : keysBelow m n) : lookup m n = none := by
  induction m with
  | nil => rfl
  | cons kv rest ih =>
    have h1 : kv.1 < n := h kv (List.mem_cons_self _ _)
    have h2 : kv.1 ≠ n := Nat.ne_of_lt h1
    simp only [lookup, if_neg h2]
    exact ih (fun kv' hm => h kv' (List.mem_cons_of_mem _ hm))

theorem keysBelow_dictSet {α : Type} {m : List (Nat × α)} {n : Nat} {v : α}
    (h : keysBelow m n) : keysBelow (dictSet m n v) (n + 1) := by
  intro kv hkv
  rcases mem_dictSet hkv with h' | h'
  · rw [h']
    exact Nat.lt_succ_self n
  · exact Nat.lt_succ_of_lt (h kv h')

/-- No embedded handler ever assigns the `salary_requests` attribute. -/
theorem Step.preserves_salary_requests {s s' : AppState} (hst : Step s s') :
    s'.salary_requests = s.salary_requests := by
  cases hst <;>
    rename_i h <;>
    simp only [create_department, create_employee, create_promotion_request,
      decide_promotion_request, finalize_promotion_request, create_salary_adjustment,
      decide_salary_adjustment, create_onboarding_case, complete_onboarding_step,
      finalize_onboarding, create_offboarding_case, complete_offboarding_step,
      finalize_offboarding, create_training, enroll_training, submit_training_exam,
      complete_training, create_leave_request, decide_leave, review_leave,
      create_travel_request, decide_travel, review_travel, checkin] at h <;>
    (repeat' split at h) <;>
    first
      | (simp only [Except.ok.injEq, Prod.mk.injEq] at h
         obtain ⟨-, rfl⟩ := h
         rfl)
      | simp_all

theorem reachable_salary_requests_none {s : AppState} (h : Reachable s) :
    s.salary_requests = none := by
  induction h with
  | refl => rfl
  | tail _ step ih => rw [Step.preserves_salary_requests step, ih]

/-- C10: in every reachable application state, GET /stats raises instead of
returning statistics: `create_app` initializes `salary_adjustments` but
never `salary_requests` (nor `training_enrollments`), no handler assigns
either attribute, and `get_system_stats` reads `app.state.salary_requests`,
so the read raises `AttributeError`. -/
theorem get_system_stats_always_raises (s : AppState) (h : Reachable s) :
    get_system_stats s = Except.error "AttributeError: salary_requests" := by
  have hn : s.salary_requests = none := reachable_salary_requests_none h
  simp only [get_system_stats, hn]

/-- Witness for C10 at the freshly created application state. -/
theorem get_system_stats_always_raises_witness :
    get_system_stats mkInitialState = Except.error "AttributeError: salary_requests" :=
  get_system_stats_always_raises mkInitialState Relation.ReflTransGen.refl

/-! Shape of a successful decision: the decided record is stored under the
same id and has left the `pending` status. -/

theorem decide_leave_ok_shape {s s' : AppState} {leave_id : Nat}
    {p : LeaveDecisionPayload} {now : Rat} {r : LeaveRecord}
    (h : decide_leave s leave_id p now = Except.ok (r, s')) :
    lookup s'.leave_requests leave_id = some r ∧ r.status ≠ "pending" := by
  simp only [decide_leave] at h
  repeat' split at h
  all_goals simp_all
  all_goals obtain ⟨rfl, rfl⟩ := h
  all_goals constructor
  all_goals
    first
      | exact lookup_dictSet_self _ _ _
      | simp

theorem decide_promotion_ok_shape {s s' : AppState} {request_id : Nat}
    {p : PromotionDecisionPayload} {now : Rat} {r : PromotionRecord}
    (h : decide_promotion_request s request_id p now = Except.ok (r, s')) :
    lookup s'.promotion_requests request_id = some r ∧ r.status ≠ "pending" := by
  simp only [decide_promotion_request] at h
  repeat' split at h
  all_goals simp_all
  all_goals obtain ⟨rfl, rfl⟩ := h
  all_goals constructor
  all_goals
    first
      | exact lookup_dictSet_self _ _ _
      | simp

theorem decide_salary_ok_shape {s s' : AppState} {request_id : Nat}
    {p : SalaryAdjustDecisionPayload} {now : Rat} {r : SalaryRecord}
    (h : decide_salary_adjustment s request_id p now = Except.ok (r, s')) :
    lookup s'.salary_adjustments request_id = some r := by
  simp only [decide_salary_adjustment] at h
  repeat' split at h
  all_goals simp_all
  all_goals obtain ⟨rfl, rfl⟩ := h
  all_goals exact lookup_dictSet_self _ _ _

theorem decide_travel_ok_shape {s s' : AppState} {request_id : Nat}
    {p : TravelDecisionPayload} {now : Rat} {r : TravelRecord}
    (h : decide_travel s request_id p now = Except.ok (r, s')) :
    lookup s'.travel_requests request_id = some r ∧ r.status ≠ "pending" := by
  simp only [decide_travel] at h
  repeat' split at h
  all_goals simp_all
  all_goals obtain ⟨rfl, rfl⟩ := h
  all_goals constructor
  all_goals
    first
      | exact lookup_dictSet_self _ _ _
      | simp

/-- C2 (amended): for every workflow kind, a terminal-reaching action
applied twice yields the 409 conflict on the second call with the state —
hence the stored record — unchanged: decide for leave, travel and
promotion requests, a terminalizing decide for salary adjustments, review
for leave and travel when the recorded review timestamp is nonzero (the
`reviewed_at` truthiness guard), finalize for promotions when the recorded
reviewer string is non-empty (the `hr_reviewer` truthiness guard),
finalize for onboarding and offboarding cases, and complete for trainings
for a second request with an in-range score (input validation precedes the
conflict guard); moreover every embedded handler that fails with any error
returns the state unchanged, so a rejected transition never partially
mutates a record. -/
theorem repeat_decide_conflict_and_error_immutability :
    (∀ s s' (r : LeaveRecord) leave_id p now p₂ now₂,
      decide_leave s leave_id p now = Except.ok (r, s') →
      decide_leave s' leave_id p₂ now₂ =
        Except.error (⟨409, "leave request already decided"⟩, s')) ∧
    (∀ s s' (r : LeaveRecord) leave_id (p : LeaveReviewPayload) (now : Rat) p₂ now₂,
      now ≠ 0 →
      review_leave s leave_id p now = Except.ok (r, s') →
      review_leave s' leave_id p₂ now₂ =
        Except.error (⟨409, "leave request already reviewed"⟩, s')) ∧
    (∀ s s' (r : TravelRecord) request_id p now p₂ now₂,
      decide_travel s request_id p now = Except.ok (r, s') →
      decide_travel s' request_id p₂ now₂ =
        Except.error (⟨409, "travel request already decided"⟩, s')) ∧
    (∀ s s' (r : TravelRecord) request_id (p : TravelReviewPayload) (now : Rat) p₂ now₂,
      now ≠ 0 →
      review_travel s request_id p now = Except.ok (r, s') →
      review_travel s' request_id p₂ now₂ =
        Except.error (⟨409, "travel request already reviewed"⟩, s')) ∧
    (∀ s s' (r : PromotionRecord) request_id p now p₂ now₂,
      decide_promotion_request s request_id p now = Except.ok (r, s') →
      decide_promotion_request s' request_id p₂ now₂ =
        Except.error (⟨409, "promotion request already decided"⟩, s')) ∧
    (∀ s s' (r : PromotionRecord) request_id (p : PromotionFinalizePayload) now p₂ now₂,
      p.hr_reviewer ≠ "" →
      finalize_promotion_request s request_id p now = Except.ok (r, s') →
      finalize_promotion_request s' request_id p₂ now₂ =
        Except.error (⟨409, "promotion already finalized"⟩, s')) ∧
    (∀ s s' (r : SalaryRecord) request_id p now p₂ now₂,
      decide_salary_adjustment s request_id p now = Except.ok (r, s') →
      r.status ≠ "pending" →
      decide_salary_adjustment s' request_id p₂ now₂ =
        Except.error (⟨409, "salary request already decided"⟩, s')) ∧
    (∀ s s' (r : OnboardingRecord) case_id (p : OnboardingFinalizePayload) now p₂ now₂,
      finalize_onboarding s case_id p now = Except.ok (r, s') →
      finalize_onboarding s' case_id p₂ now₂ =
        Except.error (⟨409, "onboarding already finalized"⟩, s')) ∧
    (∀ s s' (r : OffboardingRecord) case_id (p : OffboardingFinalizePayload) now p₂ now₂,
      finalize_offboarding s case_id p now = Except.ok (r, s') →
      finalize_offboarding s' case_id p₂ now₂ =
        Except.error (⟨409, "offboarding already finalized"⟩, s')) ∧
    (∀ s s' (tr' : TrainingRecord) training_id (p p₂ : TrainingCompletePayload) now now₂,
      complete_training s training_id p now = Except.ok (tr', s') →
      p₂.employee_id = p.employee_id → 0 ≤ p₂.score → p₂.score ≤ 100 →
      complete_training s' training_id p₂ now₂ =
        Except.error (⟨409, "already completed"⟩, s')) ∧
    (∀ s s₂ e p, create_department s p = Except.error (e, s₂) → s₂ = s) ∧
    (∀ s s₂ e p, create_employee s p = Except.error (e, s₂) → s₂ = s) ∧
    (∀ s s₂ e p now, create_promotion_request s p now = Except.error (e, s₂) → s₂ = s) ∧
    (∀ s s₂ e request_id p now,
      decide_promotion_request s request_id p now = Except.error (e, s₂) → s₂ = s) ∧
    (∀ s s₂ e request_id p now,
      finalize_promotion_request s request_id p now = Except.error (e, s₂) → s₂ = s) ∧
    (∀ s s₂ e p now, create_salary_adjustment s p now = Except.error (e, s₂) → s₂ = s) ∧
    (∀ s s₂ e request_id p now,
      decide_salary_adjustment s request_id p now = Except.error (e, s₂) → s₂ = s) ∧
    (∀ s s₂ e p now, create_onboarding_case s p now = Except.error (e, s₂) → s₂ = s) ∧
    (∀ s s₂ e case_id p now,
      complete_onboarding_step s case_id p now = Except.error (e, s₂) → s₂ = s) ∧
    (∀ s s₂ e case_id p now,
      finalize_onboarding s case_id p now = Except.error (e, s₂) → s₂ = s) ∧
    (∀ s s₂ e p now, create_offboarding_case s p now = Except.error (e, s₂) → s₂ = s) ∧
    (∀ s s₂ e case_id p now,
      complete_offboarding_step s case_id p now = Except.error (e, s₂) → s₂ = s) ∧
    (∀ s s₂ e case_id p now,
      finalize_offboarding s case_id p now = Except.error (e, s₂) → s₂ = s) ∧
    (∀ s s₂ e p now, create_training s p now = Except.error (e, s₂) → s₂ = s) ∧
    (∀ s s₂ e training_id p, enroll_training s training_id p = Except.error (e, s₂) → s₂ = s) ∧
    (∀ s s₂ e training_id p now,
      submit_training_exam s training_id p now = Except.error (e, s₂) → s₂ = s) ∧
    (∀ s s₂ e training_id p now,
      complete_training s training_id p now = Except.error (e, s₂) → s₂ = s) ∧
    (∀ s s₂ e p now, create_leave_request s p now = Except.error (e, s₂) → s₂ = s) ∧
    (∀ s s₂ e leave_id p now, decide_leave s leave_id p now = Except.error (e, s₂) → s₂ = s) ∧
    (∀ s s₂ e leave_id (p : LeaveReviewPayload) now,
      review_leave s leave_id p now = Except.error (e, s₂) → s₂ = s) ∧
    (∀ s s₂ e (p : TravelRequestCreatePayload) now,
      create_travel_request s p now = Except.error (e, s₂) → s₂ = s) ∧
    (∀ s s₂ e request_id (p : TravelDecisionPayload) now,
      decide_travel s request_id p now = Except.error (e, s₂) → s₂ = s) ∧
    (∀ s s₂ e request_id (p : TravelReviewPayload) now,
      review_travel s request_id p now = Except.error (e, s₂) → s₂ = s) ∧
    (∀ s s₂ e employee_id p now, checkin s employee_id p now = Except.error (e, s₂) → s₂ = s) := by
  refine ⟨?_, ?_, ?_, ?_, ?_, ?_, ?_, ?_, ?_, ?_, ?_, ?_, ?_, ?_, ?_, ?_, ?_, ?_, ?_, ?_,
    ?_, ?_, ?_, ?_, ?_, ?_, ?_, ?_, ?_, ?_, ?_, ?_, ?_, ?_⟩
  · intro s s' r leave_id p now p₂ now₂ h
    obtain ⟨hl, hs⟩ := decide_leave_ok_shape h
    simp [decide_leave, hl, hs]
  · intro s s' r leave_id p now p₂ now₂ hnow h
    simp only [review_leave] at h
    cases hrec : lookup s.leave_requests leave_id with
    | none =>
      simp only [hrec] at h
      exact absurd h (by simp)
    | some record =>
      simp only [hrec] at h
      by_cases hst : record.status ≠ "approved"
      · rw [if_pos hst] at h
        exact absurd h (by simp)
      · rw [if_neg hst] at h
        by_cases hrev : truthyOptRat record.reviewed_at = true
        · rw [if_pos hrev] at h
          exact absurd h (by simp)
        · rw [if_neg hrev] at h
          simp only [Except.ok.injEq, Prod.mk.injEq] at h
          obtain ⟨rfl, rfl⟩ := h
          have hsta := not_not.mp hst
          simp only [review_leave, lookup_dictSet_self]
          rw [if_neg (by simp [hsta]), if_pos (by simp [truthyOptRat, hnow])]
  · intro s s' r request_id p now p₂ now₂ h
    obtain ⟨hl, hs⟩ := decide_travel_ok_shape h
    simp [decide_travel, hl, hs]
  · intro s s' r request_id p now p₂ now₂ hnow h
    simp only [review_travel] at h
    cases hrec : lookup s.travel_requests request_id with
    | none =>
      simp only [hrec] at h
      exact absurd h (by simp)
    | some record =>
      simp only [hrec] at h
      by_cases hst : record.status ≠ "approved"
      · rw [if_pos hst] at h
        exact absurd h (by simp)
      · rw [if_neg hst] at h
        by_cases hrev : truthyOptRat record.reviewed_at = true
        · rw [if_pos hrev] at h
          exact absurd h (by simp)
        · rw [if_neg hrev] at h
          simp only [Except.ok.injEq, Prod.mk.injEq] at h
          obtain ⟨rfl, rfl⟩ := h
          have hsta := not_not.mp hst
          simp only [review_travel, lookup_dictSet_self]
          rw [if_neg (by simp [hsta]), if_pos (by simp [truthyOptRat, hnow])]
  · intro s s' r request_id p now p₂ now₂ h
    obtain ⟨hl, hs⟩ := decide_promotion_ok_shape h
    simp [decide_promotion_request, hl, hs]
  · intro s s' r request_id p now p₂ now₂ hne h
    simp only [finalize_promotion_request] at h
    cases hrec : lookup s.promotion_requests request_id with
    | none =>
      simp only [hrec] at h
      exact absurd h (by simp)
    | some record =>
      simp only [hrec] at h
      by_cases hst : record.status ≠ "approved"
      · rw [if_pos hst] at h
        exact absurd h (by simp)
      · rw [if_neg hst] at h
        by_cases htr : truthyOptStr record.hr_reviewer = true
        · rw [if_pos htr] at h
          exact absurd h (by simp)
        · rw [if_neg htr] at h
          cases heq : lookup s.employees record.employee_id with
          | none =>
            simp only [heq] at h
            exact absurd h (by simp)
          | some employee =>
            simp only [heq, Except.ok.injEq, Prod.mk.injEq] at h
            obtain ⟨rfl, rfl⟩ := h
            have hsta := not_not.mp hst
            simp only [finalize_promotion_request, lookup_dictSet_self]
            rw [if_neg (by simp [hsta]),
              if_pos (by simp [truthyOptStr, Bool.eq_false_iff, String.isEmpty_iff, hne])]
  · intro s s' r request_id p now p₂ now₂ h hs
    have hl := decide_salary_ok_shape h
    simp [decide_salary_adjustment, hl, hs]
  · intro s s' r case_id p now p₂ now₂ h
    simp only [finalize_onboarding] at h
    repeat' split at h
    all_goals simp_all
    obtain ⟨rfl, rfl⟩ := h
    simp only [finalize_onboarding, lookup_dictSet_self]
    rw [if_pos (by simp)]
  · intro s s' r case_id p now p₂ now₂ h
    simp only [finalize_offboarding] at h
    repeat' split at h
    all_goals simp_all
    obtain ⟨rfl, rfl⟩ := h
    simp only [finalize_offboarding, lookup_dictSet_self]
    rw [if_pos (by simp)]
  · intro s s' tr' training_id p p₂ now now₂ h hpe h0 h100
    simp only [complete_training] at h
    cases htr : lookup s.trainings training_id with
    | none =>
      simp only [htr] at h
      exact absurd h (by simp)
    | some tr =>
      simp only [htr] at h
      by_cases henr : p.employee_id ∉ tr.enrolled
      · rw [if_pos henr] at h
        exact absurd h (by simp)
      · rw [if_neg henr] at h
        cases hexq : lookup tr.exams p.employee_id with
        | none =>
          simp only [hexq] at h
          exact absurd h (by simp)
        | some exam =>
          simp only [hexq] at h
          by_cases hpass : ¬ exam.passed = true
          · rw [if_pos hpass] at h
            exact absurd h (by simp)
          · rw [if_neg hpass] at h
            by_cases hsc : p.score < 0 ∨ p.score > 100
            · rw [if_pos hsc] at h
              exact absurd h (by simp)
            · rw [if_neg hsc] at h
              by_cases hcomp : p.employee_id ∈ tr.completed
              · rw [if_pos hcomp] at h
                exact absurd h (by simp)
              · rw [if_neg hcomp] at h
                simp only [Except.ok.injEq, Prod.mk.injEq] at h
                obtain ⟨rfl, rfl⟩ := h
                simp only [complete_training, lookup_dictSet_self, hpe, hexq]
                rw [if_neg (by simpa using henr), if_neg hpass,
                  if_neg (by push_neg; exact ⟨h0, h100⟩), if_pos (by simp)]
  all_goals
    intros
    rename_i h
    simp only [create_department, create_employee, create_promotion_request,
      decide_promotion_request, finalize_promotion_request, create_salary_adjustment,
      decide_salary_adjustment, create_onboarding_case, complete_onboarding_step,
      finalize_onboarding, create_offboarding_case, complete_offboarding_step,
      finalize_offboarding, create_training, enroll_training, submit_training_exam,
      complete_training, create_leave_request, decide_leave, review_leave,
      create_travel_request, decide_travel, review_travel, checkin] at h
    repeat' split at h
    all_goals simp_all

/-- Counterexample for C2: terminal-reaching repeats the code accepts.
Finalizing an approved promotion with the empty reviewer string succeeds
and a second finalize on the result succeeds again (truthiness guard on
`hr_reviewer`), and reviewing an approved leave or travel request at
timestamp exactly 0 succeeds twice (truthiness guard on the stored
`reviewed_at`), refuting the claim as stated at these concrete inputs. -/
theorem repeat_terminal_action_counterexample :
    finalize_promotion_request stPromo 1 { hr_reviewer := "" } 0 =
      Except.ok (promoRecEmptyReviewer, stPromoTwice) ∧
    (finalize_promotion_request stPromoTwice 1 { hr_reviewer := "" } 0).isOk = true ∧
    review_leave stLeaveDecided 1 { verified := true, reviewer := "hr_ops" } 0 =
      Except.ok (leaveRecReviewed0, stLeaveReviewed0) ∧
    (review_leave stLeaveReviewed0 1 { verified := true, reviewer := "again" } 5).isOk = true ∧
    review_travel stTravel 1 { verified := true, reviewer := "finance_1" } 0 =
      Except.ok (travelRecReviewed0, stTravelReviewed0) ∧
    (review_travel stTravelReviewed0 1 { verified := true, reviewer := "again" } 5).isOk = true :=
  ⟨by decide, by decide, by decide, by decide, by decide, by decide⟩

/-- Witness for C2: the approved leave request rejects a second decision
and the state is untouched. -/
theorem repeat_decide_conflict_witness :
    decide_leave stLeaveDecided 1 { approved := true, approver := "m2" } 6 =
      Except.error (⟨409, "leave request already decided"⟩, stLeaveDecided) :=
  repeat_decide_conflict_and_error_immutability.1 stLeave stLeaveDecided leaveRecApproved 1
    { approved := true, approver := "manager_1" } 5 { approved := true, approver := "m2" } 6
    (by decide)

/-- C1: for a pending salary adjustment record and a decision whose
normalized level is one of hr/manager/director, the decision entry is
appended to `approvals` in every outcome; a disapproval sets the status to
`rejected` immediately, regardless of level; an approval sets the status to
`approved` exactly when the level's rank reaches the frozen
`required_level` rank (order hr < manager < director, as positions in
`levelOrder`), and leaves it `pending` otherwise; once the record has left
`pending`, any further decision is rejected with 409. -/
theorem decide_salary_adjustment_spec (s : AppState) (request_id : Nat)
    (p : SalaryAdjustDecisionPayload) (now : Rat) (record : SalaryRecord)
    (hrec : lookup s.salary_adjustments request_id = some record)
    (hpend : record.status = "pending")
    (hlev : pyLower (pyStrip p.level) ∈ levelOrder) :
    ∃ r' s', decide_salary_adjustment s request_id p now = Except.ok (r', s') ∧
      r'.approvals = record.approvals ++
        [{ approver := p.approver, level := pyLower (pyStrip p.level),
           approved := p.approved, «at» := now }] ∧
      (p.approved = false → r'.status = "rejected") ∧
      (p.approved = true →
        (r'.status = "approved" ↔
          levelOrder.indexOf record.required_level ≤
            levelOrder.indexOf (pyLower (pyStrip p.level))) ∧
        (levelOrder.indexOf (pyLower (pyStrip p.level)) <
            levelOrder.indexOf record.required_level → r'.status = "pending")) ∧
      (r'.status ≠ "pending" → ∀ p₂ now₂,
        decide_salary_adjustment s' request_id p₂ now₂ =
          Except.error (⟨409, "salary request already decided"⟩, s')) := by
  simp only [decide_salary_adjustment, hrec]
  rw [if_neg (by simp [hpend]), if_neg (by simp [hlev])]
  refine ⟨_, _, rfl, ?_, ?_, ?_, ?_⟩
  · repeat' split
    all_goals rfl
  · intro ha
    simp [ha]
  · intro ha
    rw [if_neg (not_not_intro ha)]
    by_cases hc : List.indexOf record.required_level levelOrder ≤
        List.indexOf (pyLower (pyStrip p.level)) levelOrder
    · rw [if_pos hc]
      exact ⟨⟨fun _ => hc, fun _ => rfl⟩, fun hlt => absurd hc (Nat.not_le.mpr hlt)⟩
    · rw [if_neg hc]
      refine ⟨⟨fun habs => ?_, fun hle => absurd hle hc⟩, fun _ => hpend⟩
      exact absurd (hpend.symm.trans habs) (by decide)
  · intro hst p₂ now₂
    simp only [decide_salary_adjustment, lookup_dictSet_self]
    rw [if_pos hst]

/-- Witness for C1: approving the pending director-level request at level
director succeeds and appends the decision. -/
theorem decide_salary_adjustment_spec_witness :
    ∃ r' s', decide_salary_adjustment stSalary 1
        { approved := true, approver := "dora", level := "director" } 7 =
      Except.ok (r', s') ∧
      r'.approvals = salaryRecPending.approvals ++
        [{ approver := "dora", level := pyLower (pyStrip "director"),
           approved := true, «at» := 7 }] := by
  obtain ⟨r', s', hok, happ, -, -, -⟩ :=
    decide_salary_adjustment_spec stSalary 1
      { approved := true, approver := "dora", level := "director" } 7
      salaryRecPending (by decide) (by decide) (by decide)
  exact ⟨r', s', hok, happ⟩

/-- C3: at creation with an existing employee, both salaries positive and
distinct, and a valid effective date, `required_level` is computed from the
change ratio r = (proposed - current)/current as: r ≥ 0.2 → director,
0.1 ≤ r < 0.2 → manager, r < 0.1 → hr; in particular r = 0.1 gives
manager, r = 0.2 gives director, and r = 0.099 gives hr (exact rational
arithmetic in place of the source's floats). -/
theorem create_salary_adjustment_required_level (s : AppState)
    (p : SalaryAdjustRequestPayload) (now : Rat)
    (hemp : hasKey s.employees p.employee_id = true)
    (hcur : 0 < p.current_salary) (hprop : 0 < p.proposed_salary)
    (hne : p.proposed_salary ≠ p.current_salary)
    (hdate : p.effective_date ≠ "" ∧ p.effective_date.length = 10) :
    ∃ r' s', create_salary_adjustment s p now = Except.ok (r', s') ∧
      ((p.proposed_salary - p.current_salary) / p.current_salary ≥ 0.2 →
        r'.required_level = "director") ∧
      (0.1 ≤ (p.proposed_salary - p.current_salary) / p.current_salary ∧
          (p.proposed_salary - p.current_salary) / p.current_salary < 0.2 →
        r'.required_level = "manager") ∧
      ((p.proposed_salary - p.current_salary) / p.current_salary < 0.1 →
        r'.required_level = "hr") ∧
      ((p.proposed_salary - p.current_salary) / p.current_salary = 0.1 →
        r'.required_level = "manager") ∧
      ((p.proposed_salary - p.current_salary) / p.current_salary = 0.2 →
        r'.required_level = "director") ∧
      ((p.proposed_salary - p.current_salary) / p.current_salary = 0.099 →
        r'.required_level = "hr") := by
  simp only [create_salary_adjustment]
  rw [if_neg (by simp [hemp]),
    if_neg (by push_neg; exact ⟨hcur, hprop⟩),
    if_neg hne,
    if_neg (by push_neg; exact hdate)]
  refine ⟨_, _, rfl, ?_, ?_, ?_, ?_, ?_, ?_⟩
  · intro h
    rw [if_pos h]
  · intro h
    rw [if_neg (not_le.mpr h.2), if_pos h.1]
  · intro h
    rw [if_neg (not_le.mpr (h.trans (by norm_num))), if_neg (not_le.mpr h)]
  · intro h
    rw [h, if_neg (by norm_num), if_pos (by norm_num)]
  · intro h
    rw [h, if_pos (by norm_num)]
  · intro h
    rw [h, if_neg (by norm_num), if_neg (by norm_num)]

/-- Witness for C3: raising 1000 to 1100 is ratio exactly 0.1 and requires
manager approval. -/
theorem create_salary_adjustment_required_level_witness :
    ∃ r' s', create_salary_adjustment stBase
        { employee_id := 1000, current_salary := 1000, proposed_salary := 1100,
          effective_date := "2026-02-01", reason := none } 0 = Except.ok (r', s') ∧
      r'.required_level = "manager" := by
  obtain ⟨r', s', hok, -, -, -, hm, -, -⟩ :=
    create_salary_adjustment_required_level stBase
      { employee_id := 1000, current_salary := 1000, proposed_salary := 1100,
        effective_date := "2026-02-01", reason := none } 0
      (by decide) (by norm_num) (by norm_num) (by norm_num) (by decide)
  exact ⟨r', s', hok, hm (by norm_num)⟩

/-- C4: for onboarding and offboarding cases, finalize succeeds exactly
when the case is `in_progress` and every checklist step is completed; with
any step incomplete it fails with the steps-not-completed error leaving
the case unchanged; on success the status becomes `completed`, so a second
finalize fails with the already-finalized 409. -/
theorem finalize_checklist_spec :
    (∀ (s : AppState) case_id p now record,
      lookup s.onboarding_cases case_id = some record →
      ((∃ r' s', finalize_onboarding s case_id p now = Except.ok (r', s')) ↔
        record.status = "in_progress" ∧
          record.steps.all (fun st => st.completed) = true) ∧
      (record.status = "in_progress" →
        record.steps.all (fun st => st.completed) = false →
        finalize_onboarding s case_id p now =
          Except.error (⟨400, "steps not completed"⟩, s)) ∧
      (∀ r' s', finalize_onboarding s case_id p now = Except.ok (r', s') →
        r'.status = "completed" ∧
        ∀ p₂ now₂, finalize_onboarding s' case_id p₂ now₂ =
          Except.error (⟨409, "onboarding already finalized"⟩, s'))) ∧
    (∀ (s : AppState) case_id p now record,
      lookup s.offboarding_cases case_id = some record →
      ((∃ r' s', finalize_offboarding s case_id p now = Except.ok (r', s')) ↔
        record.status = "in_progress" ∧
          record.steps.all (fun st => st.completed) = true) ∧
      (record.status = "in_progress" →
        record.steps.all (fun st => st.completed) = false →
        finalize_offboarding s case_id p now =
          Except.error (⟨400, "steps not completed"⟩, s)) ∧
      (∀ r' s', finalize_offboarding s case_id p now = Except.ok (r', s') →
        r'.status = "completed" ∧
        ∀ p₂ now₂, finalize_offboarding s' case_id p₂ now₂ =
          Except.error (⟨409, "offboarding already finalized"⟩, s'))) := by
  constructor
  · intro s case_id p now record hrec
    refine ⟨⟨?_, ?_⟩, ?_, ?_⟩
    · rintro ⟨r', s', hok⟩
      simp only [finalize_onboarding, hrec] at hok
      repeat' split at hok
      all_goals simp_all
    · rintro ⟨h1, h2⟩
      simp only [finalize_onboarding, hrec]
      rw [if_neg (not_not_intro h1), if_neg (not_not_intro h2)]
      exact ⟨_, _, rfl⟩
    · intro h1 h2
      simp only [finalize_onboarding, hrec]
      rw [if_neg (not_not_intro h1), if_pos (by simp [h2])]
    · intro r' s' hok
      simp only [finalize_onboarding, hrec] at hok
      repeat' split at hok
      all_goals simp_all
      obtain ⟨rfl, rfl⟩ := hok
      refine ⟨rfl, ?_⟩
      intro p₂ now₂
      simp only [finalize_onboarding, lookup_dictSet_self]
      rw [if_pos (by simp)]
  · intro s case_id p now record hrec
    refine ⟨⟨?_, ?_⟩, ?_, ?_⟩
    · rintro ⟨r', s', hok⟩
      simp only [finalize_offboarding, hrec] at hok
      repeat' split at hok
      all_goals simp_all
    · rintro ⟨h1, h2⟩
      simp only [finalize_offboarding, hrec]
      rw [if_neg (not_not_intro h1), if_neg (not_not_intro h2)]
      exact ⟨_, _, rfl⟩
    · intro h1 h2
      simp only [finalize_offboarding, hrec]
      rw [if_neg (not_not_intro h1), if_pos (by simp [h2])]
    · intro r' s' hok
      simp only [finalize_offboarding, hrec] at hok
      repeat' split at hok
      all_goals simp_all
      obtain ⟨rfl, rfl⟩ := hok
      refine ⟨rfl, ?_⟩
      intro p₂ now₂
      simp only [finalize_offboarding, lookup_dictSet_self]
      rw [if_pos (by simp)]

/-- Witness for C4: the onboarding case with three incomplete steps fails
finalize with the steps-not-completed error and the state unchanged. -/
theorem finalize_checklist_spec_witness :
    finalize_onboarding stOnb 1 { hr_reviewer := "hr_lead" } 3 =
      Except.error (⟨400, "steps not completed"⟩, stOnb) :=
  ((finalize_checklist_spec.1 stOnb 1 { hr_reviewer := "hr_lead" } 3 onbIncomplete
    (by decide)).2.1) (by decide) (by decide)

theorem mem_of_lookup_eq_some {α : Type} {m : List (Nat × α)} {k : Nat} {v : α}
    (h : lookup m k = some v) : (k, v) ∈ m := by
  induction m with
  | nil => simp [lookup] at h
  | cons kv rest ih =>
    by_cases hk : kv.1 = k
    · simp only [lookup, if_pos hk, Option.some.injEq] at h
      have : kv = (k, v) := by
        cases kv
        simp_all
      rw [← this]
      exact List.mem_cons_self _ _
    · simp only [lookup, if_neg hk] at h
      exact List.mem_cons_of_mem _ (ih h)

/-- C5: for a training and an enrolled employee, with the stored exams
consistent with the pass threshold (exactly how `submit_training_exam`
writes them), `complete` fails with the exam-not-passed error when no
stored exam with score ≥ 60 exists for that employee, and succeeds,
appending the employee to `completed`, when a passing exam exists, the
submitted score is in range, and the employee has not already completed;
exam re-submission is never blocked and overwrites the stored result. -/
theorem complete_training_requires_passing_exam (s : AppState)
    (training_id : Nat) (p : TrainingCompletePayload) (now : Rat)
    (tr : TrainingRecord) (htr : lookup s.trainings training_id = some tr)
    (henr : p.employee_id ∈ tr.enrolled) (hex : examsConsistent tr) :
    ((¬ ∃ ex, lookup tr.exams p.employee_id = some ex ∧ ex.score ≥ 60) →
      complete_training s training_id p now =
        Except.error (⟨400, "exam not passed"⟩, s)) ∧
    (∀ ex, lookup tr.exams p.employee_id = some ex → ex.score ≥ 60 →
      0 ≤ p.score → p.score ≤ 100 → p.employee_id ∉ tr.completed →
      ∃ tr' s', complete_training s training_id p now = Except.ok (tr', s') ∧
        tr'.completed = tr.completed ++ [p.employee_id]) ∧
    (∀ (q : TrainingExamPayload) (nq : Rat), q.employee_id ∈ tr.enrolled →
      0 ≤ q.score → q.score ≤ 100 →
      ∃ tr' s', submit_training_exam s training_id q nq = Except.ok (tr', s') ∧
        lookup tr'.exams q.employee_id =
          some { score := q.score, passed := decide (q.score ≥ 60),
                 submitted_at := nq } ∧
        examsConsistent tr') := by
  refine ⟨?_, ?_, ?_⟩
  · intro hno
    simp only [complete_training, htr]
    rw [if_neg (not_not_intro henr)]
    cases hleq : lookup tr.exams p.employee_id with
    | none => simp only [hleq]
    | some ex =>
      simp only [hleq]
      have hp : ex.passed = decide (ex.score ≥ 60) :=
        hex _ (mem_of_lookup_eq_some hleq)
      have hnge : ¬ ex.score ≥ 60 := fun hge => hno ⟨ex, hleq, hge⟩
      rw [if_pos (by simp [hp, hnge])]
  · intro ex hleq hge hs0 hs100 hnc
    simp only [complete_training, htr]
    rw [if_neg (not_not_intro henr)]
    simp only [hleq]
    have hp : ex.passed = decide (ex.score ≥ 60) :=
      hex _ (mem_of_lookup_eq_some hleq)
    rw [if_neg (by simp [hp, hge]),
      if_neg (by push_neg; exact ⟨hs0, hs100⟩),
      if_neg hnc]
    exact ⟨_, _, rfl, rfl⟩
  · intro q nq hqe hq0 hq100
    simp only [submit_training_exam, htr]
    rw [if_neg (not_not_intro hqe), if_neg (by push_neg; exact ⟨hq0, hq100⟩)]
    refine ⟨_, _, rfl, lookup_dictSet_self _ _ _, ?_⟩
    intro kv hkv
    rcases mem_dictSet hkv with h' | h'
    · rw [h']
    · exact hex _ h'

/-- Witness for C5: the enrolled employee with a stored passing exam
(score 70) completes the training with score 92. -/
theorem complete_training_requires_passing_exam_witness :
    ∃ tr' s', complete_training stTraining 1 { employee_id := 1000, score := 92 } 4 =
      Except.ok (tr', s') ∧ tr'.completed = trainingRec.completed ++ [1000] :=
  (complete_training_requires_passing_exam stTraining 1
      { employee_id := 1000, score := 92 } 4 trainingRec
      (by decide) (by decide) (by decide)).2.1
    { score := 70, passed := true, submitted_at := 0 }
    (by decide) (by decide) (by decide) (by decide) (by decide)

/-- C6 (amended): the error-status mapping of every embedded operation,
the workflow-engine surface the spec scopes: creations and transitions of
department, employee, leave, travel, promotion, salary-adjustment,
onboarding, offboarding and training records, and attendance check-in.
Every failure carries one of the operation's enumerated (status, detail)
pairs: missing records or references give 404, malformed or out-of-range
input gives 400, and already-decided/finalized/reviewed, not-enrolled,
already-completed, duplicate and capacity-exceeded conflicts give 409 —
except that the checklist-incomplete failure of onboarding/offboarding
finalize and the exam-not-passed failure of training complete return 400,
not the 409 of the claimed InvalidState/PreconditionFailed mapping; a
success returns the updated record (serialized with status 200), which is
also what is stored. -/
theorem error_status_mapping_spec :
    (∀ (s : AppState) case_id (p : OnboardingFinalizePayload) now,
      (lookup s.onboarding_cases case_id = none →
        finalize_onboarding s case_id p now =
          Except.error (⟨404, "onboarding case not found"⟩, s)) ∧
      (∀ record, lookup s.onboarding_cases case_id = some record →
        (record.status ≠ "in_progress" →
          finalize_onboarding s case_id p now =
            Except.error (⟨409, "onboarding already finalized"⟩, s)) ∧
        (record.status = "in_progress" →
          (record.steps.all fun st => st.completed) = false →
          finalize_onboarding s case_id p now =
            Except.error (⟨400, "steps not completed"⟩, s)))) ∧
    (∀ (s : AppState) case_id (p : OffboardingFinalizePayload) now,
      (lookup s.offboarding_cases case_id = none →
        finalize_offboarding s case_id p now =
          Except.error (⟨404, "offboarding case not found"⟩, s)) ∧
      (∀ record, lookup s.offboarding_cases case_id = some record →
        (record.status ≠ "in_progress" →
          finalize_offboarding s case_id p now =
            Except.error (⟨409, "offboarding already finalized"⟩, s)) ∧
        (record.status = "in_progress" →
          (record.steps.all fun st => st.completed) = false →
          finalize_offboarding s case_id p now =
            Except.error (⟨400, "steps not completed"⟩, s)))) ∧
    (∀ (s : AppState) training_id (p : TrainingCompletePayload) now,
      (lookup s.trainings training_id = none →
        complete_training s training_id p now =
          Except.error (⟨404, "training not found"⟩, s)) ∧
      (∀ tr, lookup s.trainings training_id = some tr →
        (p.employee_id ∉ tr.enrolled →
          complete_training s training_id p now =
            Except.error (⟨409, "not enrolled"⟩, s)) ∧
        (p.employee_id ∈ tr.enrolled →
          (lookup tr.exams p.employee_id = none →
            complete_training s training_id p now =
              Except.error (⟨400, "exam not passed"⟩, s)) ∧
          (∀ ex, lookup tr.exams p.employee_id = some ex →
            (ex.passed = false →
              complete_training s training_id p now =
                Except.error (⟨400, "exam not passed"⟩, s)) ∧
            (ex.passed = true → p.score < 0 ∨ p.score > 100 →
              complete_training s training_id p now =
                Except.error (⟨400, "invalid score"⟩, s)) ∧
            (ex.passed = true → 0 ≤ p.score → p.score ≤ 100 →
              p.employee_id ∈ tr.completed →
              complete_training s training_id p now =
                Except.error (⟨409, "already completed"⟩, s)))))) ∧
    (∀ (s : AppState) training_id (p : TrainingEnrollPayload),
      (lookup s.trainings training_id = none →
        enroll_training s training_id p =
          Except.error (⟨404, "training not found"⟩, s)) ∧
      (∀ tr, lookup s.trainings training_id = some tr →
        (hasKey s.employees p.employee_id = false →
          enroll_training s training_id p =
            Except.error (⟨404, "employee not found"⟩, s)) ∧
        (hasKey s.employees p.employee_id = true →
          (p.employee_id ∈ tr.enrolled →
            enroll_training s training_id p =
              Except.error (⟨409, "already enrolled"⟩, s)) ∧
          (p.employee_id ∉ tr.enrolled →
            (tr.enrolled.length : Int) ≥ tr.capacity →
            enroll_training s training_id p =
              Except.error (⟨409, "training is full"⟩, s))))) ∧
    (∀ (s : AppState) training_id (p : TrainingEnrollPayload) tr' s',
      enroll_training s training_id p = Except.ok (tr', s') →
      lookup s'.trainings training_id = some tr') ∧
    (∀ (s : AppState) (p : DepartmentCreate) e s₂,
      create_department s p = Except.error (e, s₂) →
      (e.status, e.detail) ∈ [(400, "invalid department name")]) ∧
    (∀ (s : AppState) (p : EmployeeCreate) e s₂,
      create_employee s p = Except.error (e, s₂) →
      (e.status, e.detail) ∈ [(404, "department not found")]) ∧
    (∀ (s : AppState) (p : PromotionRequestPayload) now e s₂,
      create_promotion_request s p now = Except.error (e, s₂) →
      (e.status, e.detail) ∈ [(404, "employee not found"),
        (400, "invalid title"), (400, "invalid effective date")]) ∧
    (∀ (s : AppState) request_id (p : PromotionDecisionPayload) now e s₂,
      decide_promotion_request s request_id p now = Except.error (e, s₂) →
      (e.status, e.detail) ∈ [(404, "promotion request not found"),
        (409, "promotion request already decided")]) ∧
    (∀ (s : AppState) request_id (p : PromotionFinalizePayload) now e s₂,
      finalize_promotion_request s request_id p now = Except.error (e, s₂) →
      (e.status, e.detail) ∈ [(404, "promotion request not found"),
        (409, "promotion not approved"), (409, "promotion already finalized"),
        (404, "employee not found")]) ∧
    (∀ (s : AppState) (p : SalaryAdjustRequestPayload) now e s₂,
      create_salary_adjustment s p now = Except.error (e, s₂) →
      (e.status, e.detail) ∈ [(404, "employee not found"),
        (400, "invalid salary"), (400, "no change in salary"),
        (400, "invalid effective date")]) ∧
    (∀ (s : AppState) request_id (p : SalaryAdjustDecisionPayload) now e s₂,
      decide_salary_adjustment s request_id p now = Except.error (e, s₂) →
      (e.status, e.detail) ∈ [(404, "salary request not found"),
        (409, "salary request already decided"),
        (400, "invalid approval level")]) ∧
    (∀ (s : AppState) (p : OnboardingCreatePayload) now e s₂,
      create_onboarding_case s p now = Except.error (e, s₂) →
      (e.status, e.detail) ∈ [(404, "employee not found"),
        (400, "invalid start date"), (400, "invalid equipment")]) ∧
    (∀ (s : AppState) case_id (p : OnboardingStepPayload) now e s₂,
      complete_onboarding_step s case_id p now = Except.error (e, s₂) →
      (e.status, e.detail) ∈ [(404, "onboarding case not found"),
        (404, "step not found")]) ∧
    (∀ (s : AppState) case_id (p : OnboardingFinalizePayload) now e s₂,
      finalize_onboarding s case_id p now = Except.error (e, s₂) →
      (e.status, e.detail) ∈ [(404, "onboarding case not found"),
        (409, "onboarding already finalized"), (400, "steps not completed")]) ∧
    (∀ (s : AppState) (p : OffboardingCreatePayload) now e s₂,
      create_offboarding_case s p now = Except.error (e, s₂) →
      (e.status, e.detail) ∈ [(404, "employee not found"),
        (400, "invalid last workday"), (400, "invalid offboarding reason")]) ∧
    (∀ (s : AppState) case_id (p : OffboardingStepPayload) now e s₂,
      complete_offboarding_step s case_id p now = Except.error (e, s₂) →
      (e.status, e.detail) ∈ [(404, "offboarding case not found"),
        (404, "step not found")]) ∧
    (∀ (s : AppState) case_id (p : OffboardingFinalizePayload) now e s₂,
      finalize_offboarding s case_id p now = Except.error (e, s₂) →
      (e.status, e.detail) ∈ [(404, "offboarding case not found"),
        (409, "offboarding already finalized"), (400, "steps not completed")]) ∧
    (∀ (s : AppState) (p : TrainingCreatePayload) now e s₂,
      create_training s p now = Except.error (e, s₂) →
      (e.status, e.detail) ∈ [(400, "invalid training name"),
        (400, "invalid capacity")]) ∧
    (∀ (s : AppState) training_id (p : TrainingEnrollPayload) e s₂,
      enroll_training s training_id p = Except.error (e, s₂) →
      (e.status, e.detail) ∈ [(404, "training not found"),
        (404, "employee not found"), (409, "already enrolled"),
        (409, "training is full")]) ∧
    (∀ (s : AppState) training_id (p : TrainingExamPayload) now e s₂,
      submit_training_exam s training_id p now = Except.error (e, s₂) →
      (e.status, e.detail) ∈ [(404, "training not found"),
        (409, "not enrolled"), (400, "invalid score")]) ∧
    (∀ (s : AppState) training_id (p : TrainingCompletePayload) now e s₂,
      complete_training s training_id p now = Except.error (e, s₂) →
      (e.status, e.detail) ∈ [(404, "training not found"),
        (409, "not enrolled"), (400, "exam not passed"),
        (400, "invalid score"), (409, "already completed")]) ∧
    (∀ (s : AppState) (p : LeaveRequestCreate) now e s₂,
      create_leave_request s p now = Except.error (e, s₂) →
      (e.status, e.detail) ∈ [(404, "employee not found"),
        (400, "invalid leave days"), (400, "invalid leave type")]) ∧
    (∀ (s : AppState) leave_id (p : LeaveDecisionPayload) now e s₂,
      decide_leave s leave_id p now = Except.error (e, s₂) →
      (e.status, e.detail) ∈ [(404, "leave request not found"),
        (409, "leave request already decided")]) ∧
    (∀ (s : AppState) leave_id (p : LeaveReviewPayload) now e s₂,
      review_leave s leave_id p now = Except.error (e, s₂) →
      (e.status, e.detail) ∈ [(404, "leave request not found"),
        (409, "leave request not approved"),
        (409, "leave request already reviewed")]) ∧
    (∀ (s : AppState) (p : TravelRequestCreatePayload) now e s₂,
      create_travel_request s p now = Except.error (e, s₂) →
      (e.status, e.detail) ∈ [(404, "employee not found"),
        (400, "invalid travel days"), (400, "invalid destination")]) ∧
    (∀ (s : AppState) request_id (p : TravelDecisionPayload) now e s₂,
      decide_travel s request_id p now = Except.error (e, s₂) →
      (e.status, e.detail) ∈ [(404, "travel request not found"),
        (409, "travel request already decided")]) ∧
    (∀ (s : AppState) request_id (p : TravelReviewPayload) now e s₂,
      review_travel s request_id p now = Except.error (e, s₂) →
      (e.status, e.detail) ∈ [(404, "travel request not found"),
        (409, "travel request not approved"),
        (409, "travel request already reviewed")]) ∧
    (∀ (s : AppState) employee_id (p : AttendancePayload) now e s₂,
      checkin s employee_id p now = Except.error (e, s₂) →
      (e.status, e.detail) ∈ [(404, "employee not found"),
        (400, "invalid attendance status"), (400, "timestamp in future"),
        (400, "timestamp too old"),
        (409, "duplicate attendance status")]) := by
  refine ⟨?_, ?_, ?_, ?_, ?_, ?_, ?_, ?_, ?_, ?_, ?_, ?_, ?_, ?_, ?_, ?_,
    ?_, ?_, ?_, ?_, ?_, ?_, ?_, ?_, ?_, ?_, ?_, ?_, ?_⟩
  · intro s case_id p now
    constructor
    · intro hn
      simp only [finalize_onboarding, hn]
    · intro record hrec
      constructor
      · intro hst
        simp only [finalize_onboarding, hrec]
        rw [if_pos hst]
      · intro hst hall
        simp only [finalize_onboarding, hrec]
        rw [if_neg (not_not_intro hst), if_pos (by simp [hall])]
  · intro s case_id p now
    constructor
    · intro hn
      simp only [finalize_offboarding, hn]
    · intro record hrec
      constructor
      · intro hst
        simp only [finalize_offboarding, hrec]
        rw [if_pos hst]
      · intro hst hall
        simp only [finalize_offboarding, hrec]
        rw [if_neg (not_not_intro hst), if_pos (by simp [hall])]
  · intro s training_id p now
    constructor
    · intro hn
      simp only [complete_training, hn]
    · intro tr htr
      constructor
      · intro hne
        simp only [complete_training, htr]
        rw [if_pos hne]
      · intro henr
        refine ⟨?_, ?_⟩
        · intro hexn
          simp only [complete_training, htr]
          rw [if_neg (not_not_intro henr)]
          simp only [hexn]
        · intro ex hex
          refine ⟨?_, ?_, ?_⟩
          · intro hpf
            simp only [complete_training, htr]
            rw [if_neg (not_not_intro henr)]
            simp only [hex]
            rw [if_pos (by simp [hpf])]
          · intro hpt hrange
            simp only [complete_training, htr]
            rw [if_neg (not_not_intro henr)]
            simp only [hex]
            rw [if_neg (by simp [hpt]), if_pos hrange]
          · intro hpt h0 h100 hcomp
            simp only [complete_training, htr]
            rw [if_neg (not_not_intro henr)]
            simp only [hex]
            rw [if_neg (by simp [hpt]),
              if_neg (by push_neg; exact ⟨h0, h100⟩), if_pos hcomp]
  · intro s training_id p
    constructor
    · intro hn
      simp only [enroll_training, hn]
    · intro tr htr
      refine ⟨?_, ?_⟩
      · intro hk
        simp only [enroll_training, htr]
        rw [if_pos (by simp [hk])]
      · intro hk
        refine ⟨?_, ?_⟩
        · intro henr
          simp only [enroll_training, htr]
          rw [if_neg (by simp [hk]), if_pos henr]
        · intro henr hcap
          simp only [enroll_training, htr]
          rw [if_neg (by simp [hk]), if_neg henr, if_pos hcap]
  · intro s training_id p tr' s' h
    simp only [enroll_training] at h
    repeat' split at h
    all_goals simp_all
    obtain ⟨rfl, rfl⟩ := h
    exact lookup_dictSet_self _ _ _
  all_goals
    intros
    rename_i h
    simp only [create_department, create_employee, create_promotion_request,
      decide_promotion_request, finalize_promotion_request,
      create_salary_adjustment, decide_salary_adjustment,
      create_onboarding_case, complete_onboarding_step, finalize_onboarding,
      create_offboarding_case, complete_offboarding_step,
      finalize_offboarding, create_training, enroll_training,
      submit_training_exam, complete_training, create_leave_request,
      decide_leave, review_leave, create_travel_request, decide_travel,
      review_travel, checkin] at h
    repeat' split at h
    all_goals simp_all
  all_goals obtain ⟨rfl, rfl⟩ := h
  all_goals decide

/-- Counterexample for C6: a checklist-incomplete finalize returns HTTP
status 400, not the 409 required by the claimed mapping of
InvalidState/PreconditionFailed (which covers "checklist incomplete") to
409. -/
theorem error_status_mapping_counterexample :
    finalize_onboarding stOnb 1 { hr_reviewer := "hr_lead" } 0 =
      Except.error (⟨400, "steps not completed"⟩, stOnb) ∧
    (400 : Nat) ≠ 409 :=
  ⟨by decide, by decide⟩

/-- Witness for C6 (amended): completing a training while not enrolled is
a 409 conflict. -/
theorem error_status_mapping_spec_witness :
    complete_training stTraining 1 { employee_id := 999, score := 50 } 0 =
      Except.error (⟨409, "not enrolled"⟩, stTraining) :=
  ((error_status_mapping_spec.2.2.1 stTraining 1
      { employee_id := 999, score := 50 } 0).2 trainingRec (by decide)).1
    (by decide)

/-- C7: for a checkin by an existing employee with a valid lowercased
status and a client-supplied effective timestamp, a timestamp more than
300 seconds after `now` or more than 86400 seconds before `now` is
rejected with a 400 error leaving the state unchanged; otherwise, if the
employee's most recent recorded attendance status equals the new status
the checkin is rejected with the 409 duplicate conflict, and otherwise the
checkin is appended to the attendance log. -/
theorem checkin_spec (s : AppState) (employee_id : Nat) (p : AttendancePayload)
    (now ts : Rat)
    (hemp : hasKey s.employees employee_id = true)
    (hstat : pyLower p.status ∈ ["in", "out"])
    (hts : p.timestamp = some ts) :
    (ts > now + 300 ∨ ts < now - 86400 →
      ∃ e : Err, checkin s employee_id p now = Except.error (e, s) ∧
        e.status = 400) ∧
    (ts ≤ now + 300 → now - 86400 ≤ ts →
      ((lastAttendance s employee_id).map (fun r => r.status) =
          some (pyLower p.status) →
        checkin s employee_id p now =
          Except.error (⟨409, "duplicate attendance status"⟩, s)) ∧
      ((lastAttendance s employee_id).map (fun r => r.status) ≠
          some (pyLower p.status) →
        ∃ s', checkin s employee_id p now = Except.ok ("ok", s') ∧
          s'.attendance = s.attendance ++
            [{ employee_id := employee_id, status := pyLower p.status,
               note := p.note, ts := ts }])) := by
  constructor
  · intro hbad
    simp only [checkin, hts]
    rw [if_neg (by simp [hemp]), if_neg (not_not_intro hstat)]
    rcases hbad with hfut | hold
    · rw [if_pos hfut]
      exact ⟨_, rfl, rfl⟩
    · have hle : ¬ ts > now + 300 := not_lt.mpr (le_of_lt (hold.trans_le (by linarith)))
      rw [if_neg hle, if_pos hold]
      exact ⟨_, rfl, rfl⟩
  · intro hle1 hle2
    constructor
    · intro hdup
      simp only [checkin, hts]
      rw [if_neg (by simp [hemp]), if_neg (not_not_intro hstat),
        if_neg (not_lt.mpr hle1), if_neg (not_lt.mpr hle2)]
      have hcond : (match lastAttendance s employee_id with
          | some last_record => last_record.status == pyLower p.status
          | none => false) = true := by
        cases hl : lastAttendance s employee_id with
        | none => simp [hl] at hdup
        | some r =>
          rw [hl] at hdup
          simp only [Option.map_some', Option.some.injEq] at hdup
          simp [hl, hdup]
      rw [if_pos hcond]
    · intro hndup
      simp only [checkin, hts]
      rw [if_neg (by simp [hemp]), if_neg (not_not_intro hstat),
        if_neg (not_lt.mpr hle1), if_neg (not_lt.mpr hle2)]
      have hcond : ¬ ((match lastAttendance s employee_id with
          | some last_record => last_record.status == pyLower p.status
          | none => false) = true) := by
        cases hl : lastAttendance s employee_id with
        | none => simp
        | some r =>
          rw [hl] at hndup
          simp only [Option.map_some'] at hndup
          simp only [beq_iff_eq]
          intro habs
          exact hndup (by rw [habs])
      rw [if_neg hcond]
      exact ⟨_, rfl, rfl⟩

/-- Witness for C7: a checkin whose client timestamp is one million
seconds after now is rejected with a 400 error. -/
theorem checkin_spec_witness :
    ∃ e : Err, checkin stBase 1000
        { status := "in", note := none, timestamp := some 1000000 } 0 =
      Except.error (e, stBase) ∧ e.status = 400 :=
  (checkin_spec stBase 1000
      { status := "in", note := none, timestamp := some 1000000 } 0 1000000
      (by decide) (by decide) rfl).1 (by norm_num)

/-- Counterexample for C8: finalizing an approved promotion with the empty
reviewer string succeeds, and a second finalize on the result succeeds
again, because the idempotency guard `if record["hr_reviewer"]:` is a
Python truthiness test and the empty string is falsy; the claimed "only
once, a second finalize fails with InvalidState" is false. -/
theorem finalize_promotion_once_counterexample :
    finalize_promotion_request stPromo 1 { hr_reviewer := "" } 0 =
      Except.ok (promoRecEmptyReviewer, stPromoTwice) ∧
    (finalize_promotion_request stPromoTwice 1 { hr_reviewer := "" } 0).isOk = true :=
  ⟨by decide, by decide⟩

/-- C8 (amended): promotion finalize succeeds only from `approved` with no
truthy recorded reviewer; on success it applies `to_title` to the subject
employee's title, records the reviewer (the stored status remains
`approved`; finalized is encoded by the reviewer mark), and the record is
terminal: a further decide is rejected with 409, and a second finalize is
rejected with 409 provided the reviewer string is non-empty — with an
empty reviewer the truthiness guard treats the record as not yet
finalized, allowing repeat finalization (see the counterexample). -/
theorem finalize_promotion_spec (s : AppState) (request_id : Nat)
    (p : PromotionFinalizePayload) (now : Rat) (record : PromotionRecord)
    (hrec : lookup s.promotion_requests request_id = some record) :
    (∀ r' s', finalize_promotion_request s request_id p now = Except.ok (r', s') →
      record.status = "approved" ∧ truthyOptStr record.hr_reviewer = false) ∧
    (record.status ≠ "approved" →
      finalize_promotion_request s request_id p now =
        Except.error (⟨409, "promotion not approved"⟩, s)) ∧
    (∀ r' s', finalize_promotion_request s request_id p now = Except.ok (r', s') →
      r'.hr_reviewer = some p.hr_reviewer ∧ r'.status = "approved" ∧
      lookup s'.employees record.employee_id =
        (lookup s.employees record.employee_id).map
          (fun e => { e with title := record.to_title }) ∧
      (∀ p₂ now₂, decide_promotion_request s' request_id p₂ now₂ =
        Except.error (⟨409, "promotion request already decided"⟩, s')) ∧
      (p.hr_reviewer ≠ "" → ∀ p₂ now₂,
        finalize_promotion_request s' request_id p₂ now₂ =
          Except.error (⟨409, "promotion already finalized"⟩, s'))) := by
  refine ⟨?_, ?_, ?_⟩
  · intro r' s' hok
    simp only [finalize_promotion_request, hrec] at hok
    repeat' split at hok
    all_goals simp_all
  · intro hst
    simp only [finalize_promotion_request, hrec]
    rw [if_pos hst]
  · intro r' s' hok
    simp only [finalize_promotion_request, hrec] at hok
    by_cases hst : record.status ≠ "approved"
    · rw [if_pos hst] at hok
      exact absurd hok (by simp)
    · rw [if_neg hst] at hok
      by_cases htr : truthyOptStr record.hr_reviewer = true
      · rw [if_pos htr] at hok
        exact absurd hok (by simp)
      · rw [if_neg htr] at hok
        cases heq : lookup s.employees record.employee_id with
        | none =>
          simp only [heq] at hok
          exact absurd hok (by simp)
        | some employee =>
          simp only [heq, Except.ok.injEq, Prod.mk.injEq] at hok
          obtain ⟨rfl, rfl⟩ := hok
          have hsta : record.status = "approved" := not_not.mp hst
          refine ⟨rfl, hsta, ?_, ?_, ?_⟩
          · simp only [heq, Option.map_some']
            exact lookup_dictSet_self _ _ _
          · intro p₂ now₂
            simp only [decide_promotion_request, lookup_dictSet_self]
            rw [if_pos (by simp [hsta])]
          · intro hne p₂ now₂
            simp only [finalize_promotion_request, lookup_dictSet_self]
            rw [if_neg (by simp [hsta]),
              if_pos (by simp [truthyOptStr, Bool.eq_false_iff, String.isEmpty_iff, hne])]

/-- Witness for C8: finalizing the approved promotion with the non-empty
reviewer "hr_lead" makes a second finalize fail with the 409
already-finalized error, with the state unchanged. -/
theorem finalize_promotion_spec_witness :
    finalize_promotion_request stPromoFinalized 1 { hr_reviewer := "again" } 9 =
      Except.error (⟨409, "promotion already finalized"⟩, stPromoFinalized) := by
  obtain ⟨-, -, -, -, hfin⟩ :=
    (finalize_promotion_spec stPromo 1 { hr_reviewer := "hr_lead" } 2 promoRecApproved
      (by decide)).2.2 promoRecFinalized stPromoFinalized (by decide)
  exact hfin (by decide) { hr_reviewer := "again" } 9

/-- Replacing the value at an existing key leaves the key set unchanged,
so the bound on the keys is preserved. -/
theorem keysBelow_dictSet_replace {α : Type} {m : List (Nat × α)} {k n : Nat}
    {w v : α} (hl : lookup m k = some w) (h : keysBelow m n) :
    keysBelow (dictSet m k v) n := by
  intro kv hkv
  rcases mem_dictSet hkv with h' | h'
  · rw [h']
    exact h (k, w) (mem_of_lookup_eq_some hl)
  · exact h kv h'

/-- Every embedded request preserves the id-allocation invariant: creations
bump the counter past the new key, and transitions replace values at
existing keys without adding keys. -/
theorem Step.preserves_idInvariant {s s' : AppState} (hst : Step s s') :
    idInvariant s → idInvariant s' := by
  intro hinv
  obtain ⟨h1, h2, h3, h4, h5, h6, h7⟩ := hinv
  cases hst <;>
    rename_i h <;>
    simp only [create_department, create_employee, create_promotion_request,
      decide_promotion_request, finalize_promotion_request, create_salary_adjustment,
      decide_salary_adjustment, create_onboarding_case, complete_onboarding_step,
      finalize_onboarding, create_offboarding_case, complete_offboarding_step,
      finalize_offboarding, create_training, enroll_training, submit_training_exam,
      complete_training, create_leave_request, decide_leave, review_leave,
      create_travel_request, decide_travel, review_travel, checkin] at h <;>
    (repeat' split at h) <;>
    first
      | (simp only [Except.ok.injEq, Prod.mk.injEq] at h
         obtain ⟨-, rfl⟩ := h
         refine ⟨?_, ?_, ?_, ?_, ?_, ?_, ?_⟩ <;>
           first
             | assumption
             | exact keysBelow_dictSet (by assumption)
             | exact keysBelow_dictSet_replace (by assumption) (by assumption))
      | simp_all

theorem reachable_idInvariant {s : AppState} (h : Reachable s) : idInvariant s := by
  induction h with
  | refl =>
    exact ⟨by decide, by decide, by decide, by decide, by decide, by decide, by decide⟩
  | tail _ step ih => exact Step.preserves_idInvariant step ih

/-- C9: ids are unique, monotonically increasing per workflow kind, and
never reused: the id-allocation invariant — every key of each kind's store
below that kind's counter — holds in every reachable state (preserved by
every embedded request, creations and transitions alike), and under it a
successful creation of a salary-adjustment, leave, travel, promotion,
onboarding, offboarding or training record assigns the kind's counter as
its id, which is not a key of the store and is strictly greater than every
previously assigned id, and bumps the counter, re-establishing the
invariant. -/
theorem create_ids_monotone :
    (∀ s : AppState, Reachable s → idInvariant s) ∧
    (∀ (s : AppState) p now r' s',
      keysBelow s.salary_adjustments s.next_salary_id →
      create_salary_adjustment s p now = Except.ok (r', s') →
      r'.id = s.next_salary_id ∧
      lookup s.salary_adjustments r'.id = none ∧
      (∀ kv ∈ s.salary_adjustments, kv.1 < r'.id) ∧
      s'.next_salary_id = s.next_salary_id + 1 ∧
      keysBelow s'.salary_adjustments s'.next_salary_id) ∧
    (∀ (s : AppState) p now r' s',
      keysBelow s.leave_requests s.next_leave_id →
      create_leave_request s p now = Except.ok (r', s') →
      r'.id = s.next_leave_id ∧
      lookup s.leave_requests r'.id = none ∧
      (∀ kv ∈ s.leave_requests, kv.1 < r'.id) ∧
      s'.next_leave_id = s.next_leave_id + 1 ∧
      keysBelow s'.leave_requests s'.next_leave_id) ∧
    (∀ (s : AppState) p now r' s',
      keysBelow s.travel_requests s.next_travel_id →
      create_travel_request s p now = Except.ok (r', s') →
      r'.id = s.next_travel_id ∧
      lookup s.travel_requests r'.id = none ∧
      (∀ kv ∈ s.travel_requests, kv.1 < r'.id) ∧
      s'.next_travel_id = s.next_travel_id + 1 ∧
      keysBelow s'.travel_requests s'.next_travel_id) ∧
    (∀ (s : AppState) p now r' s',
      keysBelow s.promotion_requests s.next_promotion_id →
      create_promotion_request s p now = Except.ok (r', s') →
      r'.id = s.next_promotion_id ∧
      lookup s.promotion_requests r'.id = none ∧
      (∀ kv ∈ s.promotion_requests, kv.1 < r'.id) ∧
      s'.next_promotion_id = s.next_promotion_id + 1 ∧
      keysBelow s'.promotion_requests s'.next_promotion_id) ∧
    (∀ (s : AppState) p now r' s',
      keysBelow s.onboarding_cases s.next_onboarding_id →
      create_onboarding_case s p now = Except.ok (r', s') →
      r'.id = s.next_onboarding_id ∧
      lookup s.onboarding_cases r'.id = none ∧
      (∀ kv ∈ s.onboarding_cases, kv.1 < r'.id) ∧
      s'.next_onboarding_id = s.next_onboarding_id + 1 ∧
      keysBelow s'.onboarding_cases s'.next_onboarding_id) ∧
    (∀ (s : AppState) p now r' s',
      keysBelow s.offboarding_cases s.next_offboarding_id →
      create_offboarding_case s p now = Except.ok (r', s') →
      r'.id = s.next_offboarding_id ∧
      lookup s.offboarding_cases r'.id = none ∧
      (∀ kv ∈ s.offboarding_cases, kv.1 < r'.id) ∧
      s'.next_offboarding_id = s.next_offboarding_id + 1 ∧
      keysBelow s'.offboarding_cases s'.next_offboarding_id) ∧
    (∀ (s : AppState) p now r' s',
      keysBelow s.trainings s.next_training_id →
      create_training s p now = Except.ok (r', s') →
      r'.id = s.next_training_id ∧
      lookup s.trainings r'.id = none ∧
      (∀ kv ∈ s.trainings, kv.1 < r'.id) ∧
      s'.next_training_id = s.next_training_id + 1 ∧
      keysBelow s'.trainings s'.next_training_id) := by
  refine ⟨fun s h => reachable_idInvariant h, ?_, ?_, ?_, ?_, ?_, ?_, ?_⟩
  · intro s p now r' s' hkb hok
    simp only [create_salary_adjustment] at hok
    repeat' split at hok
    all_goals simp_all
    all_goals obtain ⟨rfl, rfl⟩ := hok
    all_goals
      exact ⟨rfl, lookup_eq_none_of_keysBelow hkb,
        fun a b hab => hkb (a, b) hab, rfl, keysBelow_dictSet hkb⟩
  · intro s p now r' s' hkb hok
    simp only [create_leave_request] at hok
    repeat' split at hok
    all_goals simp_all
    all_goals obtain ⟨rfl, rfl⟩ := hok
    all_goals
      exact ⟨rfl, lookup_eq_none_of_keysBelow hkb,
        fun a b hab => hkb (a, b) hab, rfl, keysBelow_dictSet hkb⟩
  · intro s p now r' s' hkb hok
    simp only [create_travel_request] at hok
    repeat' split at hok
    all_goals simp_all
    all_goals obtain ⟨rfl, rfl⟩ := hok
    all_goals
      exact ⟨rfl, lookup_eq_none_of_keysBelow hkb,
        fun a b hab => hkb (a, b) hab, rfl, keysBelow_dictSet hkb⟩
  · intro s p now r' s' hkb hok
    simp only [create_promotion_request] at hok
    repeat' split at hok
    all_goals simp_all
    all_goals obtain ⟨rfl, rfl⟩ := hok
    all_goals
      exact ⟨rfl, lookup_eq_none_of_keysBelow hkb,
        fun a b hab => hkb (a, b) hab, rfl, keysBelow_dictSet hkb⟩
  · intro s p now r' s' hkb hok
    simp only [create_onboarding_case] at hok
    repeat' split at hok
    all_goals simp_all
    all_goals obtain ⟨rfl, rfl⟩ := hok
    all_goals
      exact ⟨rfl, lookup_eq_none_of_keysBelow hkb,
        fun a b hab => hkb (a, b) hab, rfl, keysBelow_dictSet hkb⟩
  · intro s p now r' s' hkb hok
    simp only [create_offboarding_case] at hok
    repeat' split at hok
    all_goals simp_all
    all_goals obtain ⟨rfl, rfl⟩ := hok
    all_goals
      exact ⟨rfl, lookup_eq_none_of_keysBelow hkb,
        fun a b hab => hkb (a, b) hab, rfl, keysBelow_dictSet hkb⟩
  · intro s p now r' s' hkb hok
    simp only [create_training] at hok
    repeat' split at hok
    all_goals simp_all
    all_goals obtain ⟨rfl, rfl⟩ := hok
    all_goals
      exact ⟨rfl, lookup_eq_none_of_keysBelow hkb,
        fun a b hab => hkb (a, b) hab, rfl, keysBelow_dictSet hkb⟩

/-- Witness for C9: creating a salary adjustment on the base state assigns
id 1, not previously used, and bumps the counter to 2. -/
theorem create_ids_monotone_witness :
    salaryRecCreated.id = stBase.next_salary_id ∧
    lookup stBase.salary_adjustments salaryRecCreated.id = none ∧
    (∀ kv ∈ stBase.salary_adjustments, kv.1 < salaryRecCreated.id) ∧
    stSalaryCreated.next_salary_id = stBase.next_salary_id + 1 ∧
    keysBelow stSalaryCreated.salary_adjustments stSalaryCreated.next_salary_id := by
  have hok : create_salary_adjustment stBase
      { employee_id := 1000, current_salary := 1000, proposed_salary := 1100,
        effective_date := "2026-02-01", reason := none } 6 =
      Except.ok (salaryRecCreated, stSalaryCreated) := by
    simp only [create_salary_adjustment]
    rw [if_neg (by decide), if_neg (by norm_num), if_neg (by norm_num),
      if_neg (by decide), if_neg (by norm_num), if_pos (by norm_num)]
    decide
  exact create_ids_monotone.2.1 stBase
    { employee_id := 1000, current_salary := 1000, proposed_salary := 1100,
      effective_date := "2026-02-01", reason := none } 6
    salaryRecCreated stSalaryCreated (by decide) hok

end LogPulse
